import Mathlib

/-! move2kube: ComposeGenerator and GradleAnalyser

A shallow embedding of

* `transformer/compose/composegenerator.go` (namespace `Move2Kube.compose`), and
* `transformer/dockerfilegenerator/java/gradleanalyser.go` (namespace `Move2Kube.java`),

followed by the properties established about them.

Conventions of the embedding.

* A Go `map[K]V` is an association list with unique keys (`GoMap`); `m[k] = v` is `GoMap.set`,
  `v, ok := m[k]` is `GoMap.get?`.  The order of the association list carries no meaning.
* Machine integers are `Nat`/`Int` with the wrap-around written out (`uint32`, `% 2 ^ 32`).
* A `*string` is an address into a store of string variables (`Heap`).
* Functions and constants that the two files import from other packages are fields of the
  structures `Consts` and `Deps`; every result holds for all values of these fields.
* Calls to `logrus` only write log lines and are left out; the results and errors of
  `os.MkdirAll`, `os.WriteFile` and `common.WriteYaml` are only logged by the source, so the
  embedding records the attempted writes and nothing else about them.
-/

set_option linter.dupNamespace false
set_option linter.unusedVariables false

namespace Move2Kube

/-! ## Go maps -/

/-- A Go map as an association list; the keys are kept unique by `GoMap.set`. -/
abbrev GoMap (κ υ : Type) := List (κ × υ)

namespace GoMap

variable {κ υ : Type} [DecidableEq κ]

/-- The comma-ok lookup: `v, ok := m[k]`. -/
def get? : GoMap κ υ → κ → Option υ
  | [], _ => none
  | (k', v) :: r, k => if k' = k then some v else get? r k

/-- The assignment `m[k] = v`: any earlier entry under `k` is replaced. -/
def set (m : GoMap κ υ) (k : κ) (v : υ) : GoMap κ υ :=
  (k, v) :: m.filter (fun p => decide (p.1 ≠ k))

/-- The keys present in the map. -/
def keys (m : GoMap κ υ) : List κ := m.map Prod.fst

/-- The plain lookup `m[k]` of a map of slices: a missing key gives the nil slice. -/
def getSlice {β : Type} (m : GoMap κ (List β)) (k : κ) : List β := (get? m k).getD []

end GoMap

/-- The Go conversion `uint32(x)` of a signed integer. -/
def uint32 (x : Int) : Nat := (x % 4294967296).toNat

/-- The statement `x++` on a `uint32` variable. -/
def incUint32 (x : Nat) : Nat := (x + 1) % 4294967296

/-- The store of string variables whose address has been taken; an address is an index. -/
abbrev Heap := List String

/-- The value read through a `*string`. -/
def Heap.deref (h : Heap) (p : Nat) : String := h.getD p ""

/-- The object left in the target of `Artifact.GetConfig` (or of a read) and the error returned. -/
structure Loaded (α : Type) where
  obj : α
  err : Option String

/-! ## Kubernetes core types and the IR (fields read by the two files) -/

namespace core

/-- The `ContainerPort` field is an `int32`. -/
structure ContainerPort where
  ContainerPort : Int
deriving DecidableEq, Repr

structure EnvVar where
  Name : String
  Value : String
deriving DecidableEq, Repr

end core

namespace irtypes

structure Container where
  Name : String
  Image : String
  Ports : List core.ContainerPort
  Env : List core.EnvVar
deriving DecidableEq, Repr

structure Service where
  Name : String
  Containers : List Container
deriving DecidableEq, Repr

/-- The intermediate representation: `Services` is a Go map from service name to service. -/
structure IR where
  Name : String
  Services : GoMap String Service
deriving DecidableEq, Repr

end irtypes

/-! ## Artifact and path-mapping model -/

namespace transformertypes

/-- Modelled from the spec: the artifact `type` is a tag from a closed set; the declarations
(`irtypes.IRArtifactType`, `artifacts.JarArtifactType`, ...) are missing from the sources.
The zero value of the Go string type is `other ""`. -/
inductive ArtifactType where
  | IRArtifactType
  | JarArtifactType
  | WarArtifactType
  | EarArtifactType
  | other (tag : String)
deriving DecidableEq, Repr

/-- Modelled from the spec: config-type tags form a closed enumeration; the declarations
(`artifacts.GradleConfigType`, ...) are missing from the sources. -/
inductive ConfigType where
  | IRConfigType
  | GradleConfigType
  | SpringBootConfigType
  | ImageNameConfigType
  | ServiceConfigType
  | WarConfigType
  | EarConfigType
  | JarConfigType
  | other (tag : String)
deriving DecidableEq, Repr

/-- Modelled from the spec: path-type tags form a closed enumeration; the declarations
(`artifacts.GradleBuildFilePathType`, ...) are missing from the sources. -/
inductive PathType where
  | GradleBuildFilePathType
  | ServiceDirPathType
  | BuildContainerFileType
  | other (tag : String)
deriving DecidableEq, Repr

/-- Modelled from the spec: a path mapping is a verbatim copy (the default kind) or a template
render; the declarations are missing from the sources. -/
inductive PathMappingType where
  | DefaultPathMappingType
  | TemplatePathMappingType
  | other (tag : String)
deriving DecidableEq, Repr

end transformertypes

namespace artifacts

/-- A `JavaPackaging` is a Go string; the markers for jar, war and ear are in `Consts`. -/
abbrev JavaPackaging := String

structure GradleConfig where
  ArtifactType : JavaPackaging
deriving DecidableEq, Repr

/-- The `SpringBootProfiles` field is a `*[]string`: `none` is the nil pointer. -/
structure SpringBootConfig where
  SpringBootVersion : String
  SpringBootAppName : String
  SpringBootProfiles : Option (List String)
deriving DecidableEq, Repr

structure ImageName where
  ImageName : String
deriving DecidableEq, Repr

structure ServiceConfig where
  ServiceName : String
deriving DecidableEq, Repr

structure WarArtifactConfig where
  DeploymentFile : String
  JavaVersion : String
  BuildContainerName : String
  DeploymentFileDirInBuildContainer : String
  EnvVariables : GoMap String String
deriving DecidableEq, Repr

structure EarArtifactConfig where
  DeploymentFile : String
  JavaVersion : String
  BuildContainerName : String
  DeploymentFileDirInBuildContainer : String
  EnvVariables : GoMap String String
deriving DecidableEq, Repr

structure JarArtifactConfig where
  DeploymentFile : String
  JavaVersion : String
  BuildContainerName : String
  DeploymentFileDirInBuildContainer : String
  EnvVariables : GoMap String String
  Port : Int
deriving DecidableEq, Repr

end artifacts

namespace transformertypes

/-- The payload stored under a config type (`interface{}` in Go). -/
inductive ConfigValue where
  | gradle (c : artifacts.GradleConfig)
  | springBoot (c : artifacts.SpringBootConfig)
  | imageName (c : artifacts.ImageName)
  | service (c : artifacts.ServiceConfig)
  | war (c : artifacts.WarArtifactConfig)
  | ear (c : artifacts.EarArtifactConfig)
  | jar (c : artifacts.JarArtifactConfig)
  | ir (c : irtypes.IR)
  | raw (data : String)
deriving DecidableEq, Repr

structure Artifact where
  Name : String
  Type_ : ArtifactType
  Configs : GoMap ConfigType ConfigValue
  Paths : GoMap PathType (List String)
deriving DecidableEq, Repr

/-- The binding handed to the template renderer by the Gradle analyser. -/
structure GradleBuildDockerfileTemplate where
  JavaPackageName : String
deriving DecidableEq, Repr

structure PathMapping where
  Type_ : PathMappingType
  SrcPath : String
  DestPath : String
  TemplateConfig : Option GradleBuildDockerfileTemplate
deriving DecidableEq, Repr

end transformertypes

namespace environment

/-- The execution environment handle: scratch directory, templates directory and the value of
`GetEnvironmentContext()`. -/
structure Environment where
  TempPath : String
  RelTemplatesDir : String
  Context : String
deriving DecidableEq, Repr

end environment

/-- Constants declared in packages that are missing from the sources. -/
structure Consts where
  JarPackaging : artifacts.JavaPackaging
  WarPackaging : artifacts.JavaPackaging
  EarPackaging : artifacts.JavaPackaging
  DefaultServicePort : Int
  DefaultBuildContainerName : String
  defaultAppPathInContainer : String
  springbootGroup : String
  versionMappingFilePath : String
  ConfigServicesKey : String
  Delim : String
  ConfigActiveSpringBootProfilesForServiceKeySegment : String

namespace gradle

structure GradleDependency where
  Group : String
  Name : String
  Version : String
deriving DecidableEq, Repr

/-- A named block of a build file; only its metadata is read. -/
structure GradleBlock where
  Metadata : GoMap String (List String)
deriving DecidableEq, Repr

/-- The parsed build file (`gradle.Gradle`), with the fields the analyser reads. -/
structure Gradle where
  Dependencies : List GradleDependency
  Metadata : GoMap String (List String)
  Blocks : GoMap String GradleBlock
deriving DecidableEq, Repr

end gradle

/-- Functions of other packages (and of files of package `java` missing from the sources),
the Go runtime's choice of map iteration order, and the answers of the question/answer
resolver.  Reads of the outside world are functions of their arguments. -/
structure Deps where
  /-- The call `filepath.Join(elems...)`. -/
  Join : List String → String
  /-- The call `a.GetConfig(irtypes.IRConfigType, &ir)`. -/
  GetIRConfig : transformertypes.Artifact → Loaded irtypes.IR
  /-- The call `a.GetConfig(artifacts.GradleConfigType, &gradleConfig)`. -/
  GetGradleConfig : transformertypes.Artifact → Loaded artifacts.GradleConfig
  /-- The call `a.GetConfig(artifacts.SpringBootConfigType, &springbootConfig)`. -/
  GetSpringBootConfig : transformertypes.Artifact → Loaded artifacts.SpringBootConfig
  /-- The call `a.GetConfig(artifacts.ImageNameConfigType, &sImageName)`. -/
  GetImageNameConfig : transformertypes.Artifact → Loaded artifacts.ImageName
  /-- The call `a.GetConfig(artifacts.ServiceConfigType, &sConfig)`. -/
  GetServiceConfig : transformertypes.Artifact → Loaded artifacts.ServiceConfig
  /-- The call `irpreprocessor.Preprocess(ir)`. -/
  Preprocess : irtypes.IR → Except String irtypes.IR
  /-- The order in which `for _, service := range ir.Services` visits the values of the map. -/
  rangeServices : GoMap String irtypes.Service → List irtypes.Service
  /-- The call `common.GetFilesInCurrentDirectory(dir, names, regexes)`. -/
  GetFilesInCurrentDirectory : String → List String → List String → Except String (List String)
  /-- The call `gradle.ParseGardleBuildFile(path)`. -/
  ParseGardleBuildFile : String → Except String gradle.Gradle
  /-- The call `getSpringBootAppNameAndProfilesFromDir(dir)`. -/
  getSpringBootAppNameAndProfilesFromDir : String → String × List String
  /-- The call `qaengine.FetchMultiSelectAnswer(key, desc, hints, options, defaults)`. -/
  FetchMultiSelectAnswer : String → String → List String → List String → List String → List String
  /-- The call `common.MakeStringContainerImageNameCompliant(s)`. -/
  MakeStringContainerImageNameCompliant : String → String
  /-- The call `getJavaPackage(mappingFile, version)`. -/
  getJavaPackage : String → String → Except String String
  /-- The call `os.ReadFile(path)`: the bytes returned, as a string, and the error. -/
  ReadFile : String → Loaded String
  /-- The method `ir.GetAllServicePorts()`; the ports are `int32`. -/
  GetAllServicePorts : irtypes.IR → List Int
  /-- The call `commonqa.GetPortForService(ports, name)`. -/
  GetPortForService : List Int → String → Int
  /-- The call `injectProperties(ir, name)`. -/
  injectProperties : irtypes.IR → String → irtypes.IR

/-- The call `strings.Join(elems, sep)`. -/
def stringsJoin (elems : List String) (sep : String) : String := sep.intercalate elems

/-- The call `fmt.Sprintf("%d", n)`. -/
def sprintfD (n : Int) : String := toString n

/-! ## `transformer/compose/composegenerator.go` -/

namespace composetypes

structure ServicePortConfig where
  Target : Nat
  Published : Nat
deriving DecidableEq, Repr

/-- A `map[string]*string`: the values are addresses into the `Heap`. -/
abbrev MappingWithEquals := GoMap String Nat

structure ServiceConfig where
  ContainerName : String
  Image : String
  Ports : List ServicePortConfig
  Environment : MappingWithEquals
deriving DecidableEq, Repr

end composetypes

namespace compose

structure ComposeGeneratorYamlConfig where
  OutputPath : String
deriving DecidableEq, Repr

/-- The receiver of the methods, after `Init`. -/
structure ComposeGenerator where
  Env : environment.Environment
  ComposeGeneratorConfig : ComposeGeneratorYamlConfig
deriving DecidableEq, Repr

structure composeObj where
  Version : String
  Services : GoMap String composetypes.ServiceConfig
deriving DecidableEq, Repr

/-- Lines 113-119: the loop over `container.Ports`, on the variables `ports` and
`exposedPort`. -/
def portsLoop : List core.ContainerPort → List composetypes.ServicePortConfig → Nat →
    List composetypes.ServicePortConfig × Nat
  | [], ports, exposedPort => (ports, exposedPort)
  | port :: rest, ports, exposedPort =>
      portsLoop rest
        (ports ++ [{ Target := uint32 port.ContainerPort, Published := exposedPort }])
        (incUint32 exposedPort)

/-- Lines 121-123: the loop over `container.Env`.  In the language version of this code base
(Go before 1.22) the range variable `e` is one variable for the whole loop statement; it is
stored at address `eAddr`.  Each iteration copies the element into `e` and stores the address
`&e.Value` under `e.Name`. -/
def envLoop (eAddr : Nat) : List core.EnvVar → Heap → composetypes.MappingWithEquals →
    Heap × composetypes.MappingWithEquals
  | [], heap, env => (heap, env)
  | x :: rest, heap, env => envLoop eAddr rest (heap.set eAddr x.Value) (env.set x.Name eAddr)

/-- The variables live across the loops of lines 109-132. -/
structure LoopState where
  exposedPort : Nat
  Services : GoMap String composetypes.ServiceConfig
  heap : Heap
  /-- Ghost variable, not in the source: every port entry appended to a `ports` slice so far,
  in the order of the appends (the entries of overwritten service configs included). -/
  handedOut : List composetypes.ServicePortConfig
deriving DecidableEq, Repr

/-- Lines 112-130: the body of the loop over `service.Containers`. -/
def containerStep (serviceName : String) (st : LoopState) (container : irtypes.Container) :
    LoopState :=
  let pr := portsLoop container.Ports [] st.exposedPort
  let eAddr := st.heap.length
  let er := envLoop eAddr container.Env (st.heap ++ [""]) []
  let serviceConfig : composetypes.ServiceConfig :=
    { ContainerName := container.Name
      Image := container.Image
      Ports := pr.1
      Environment := er.2 }
  { exposedPort := pr.2
    Services := st.Services.set serviceName serviceConfig
    heap := er.1
    handedOut := st.handedOut ++ pr.1 }

/-- Lines 111-131: the loop over `service.Containers`. -/
def containersLoop (serviceName : String) : List irtypes.Container → LoopState → LoopState
  | [], st => st
  | container :: rest, st => containersLoop serviceName rest (containerStep serviceName st container)

/-- Lines 110-132: the loop over the services, in the order they are visited. -/
def servicesLoop : List irtypes.Service → LoopState → LoopState
  | [], st => st
  | service :: rest, st => servicesLoop rest (containersLoop service.Name service.Containers st)

/-- Lines 109-132: the state after the loops, started with `exposedPort = 8080` and the empty
`c.Services`. -/
def runLoops (visited : List irtypes.Service) (heap : Heap) : LoopState :=
  servicesLoop visited { exposedPort := 8080, Services := [], heap := heap, handedOut := [] }

/-- Lines 105-132: the compose object built from the services in visiting order, and the
store afterwards. -/
def buildCompose (visited : List irtypes.Service) (heap : Heap) : composeObj × Heap :=
  let st := runLoops visited heap
  ({ Version := "3.5", Services := st.Services }, st.heap)

/-- A call of `common.WriteYaml(path, c)`: the document and the store it is read against. -/
structure Emitted where
  path : String
  doc : composeObj
  mem : Heap
deriving DecidableEq, Repr

/-- The variables live across the loop over `newArtifacts`, and the writes attempted so far. -/
structure Acc where
  pathMappings : List transformertypes.PathMapping
  emitted : List Emitted
  heap : Heap
deriving DecidableEq, Repr

/-- Lines 87-146: the body of the loop over `newArtifacts`. -/
def transformStep (D : Deps) (t : ComposeGenerator) (acc : Acc) (a : transformertypes.Artifact) :
    Acc :=
  if a.Type_ ≠ transformertypes.ArtifactType.IRArtifactType then acc
  else
    let loaded := D.GetIRConfig a
    match loaded.err with
    | some _ => acc
    | none =>
      let ir : irtypes.IR := { loaded.obj with Name := a.Name }
      let ir : irtypes.IR :=
        match D.Preprocess ir with
        | Except.error _ => ir
        | Except.ok preprocessedIR => preprocessedIR
      let built := buildCompose (D.rangeServices ir.Services) acc.heap
      let composePath := t.ComposeGeneratorConfig.OutputPath
      let absComposePath := D.Join [t.Env.TempPath, composePath]
      { pathMappings := acc.pathMappings ++
          [{ Type_ := transformertypes.PathMappingType.DefaultPathMappingType
             SrcPath := absComposePath
             DestPath := composePath
             TemplateConfig := none }]
        emitted := acc.emitted ++
          [{ path := D.Join [absComposePath, "docker-compose.yaml"], doc := built.1, mem := built.2 }]
        heap := built.2 }

/-- Lines 86-147: the loop over `newArtifacts`. -/
def transformLoop (D : Deps) (t : ComposeGenerator) : List transformertypes.Artifact → Acc → Acc
  | [], acc => acc
  | a :: rest, acc => transformLoop D t rest (transformStep D t acc a)

/-- What `Transform` returns, and the documents it attempted to write. -/
structure TransformResult where
  pathMappings : List transformertypes.PathMapping
  createdArtifacts : List transformertypes.Artifact
  err : Option String
  emitted : List Emitted
deriving DecidableEq, Repr

/-- Lines 84-149: `ComposeGenerator.Transform`. -/
def Transform (D : Deps) (t : ComposeGenerator)
    (newArtifacts alreadySeenArtifacts : List transformertypes.Artifact) : TransformResult :=
  let _ := alreadySeenArtifacts
  let acc := transformLoop D t newArtifacts { pathMappings := [], emitted := [], heap := [] }
  { pathMappings := acc.pathMappings, createdArtifacts := [], err := none, emitted := acc.emitted }

/-- The environment of an emitted service as the YAML writer reads it: every pointer is
followed in the store. -/
def resolveEnv (mem : Heap) (env : composetypes.MappingWithEquals) : GoMap String String :=
  env.map (fun p => (p.1, mem.deref p.2))

end compose

/-! ## `transformer/dockerfilegenerator/java/gradleanalyser.go` -/

namespace java

open transformertypes

def gradleBuildFileName : String := "build.gradle"

def archiveNameC : String := "archiveName"

structure GradleYamlConfig where
  GradleVersion : String
  JavaVersion : String
  AppPathInBuildContainer : String
deriving DecidableEq, Repr

/-- The receiver of the methods, after `Init`. -/
structure GradleAnalyser where
  Env : environment.Environment
  GradleConfig : GradleYamlConfig
deriving DecidableEq, Repr

/-- What `DirectoryDetect` returns; a nil map is the empty map. -/
structure DetectResult where
  services : GoMap String (List Artifact)
  err : Option String
deriving DecidableEq, Repr

/-- Lines 110-125: the loop over `gradleBuild.Dependencies`, on the variables `appName` and
`ct.Configs`; the first dependency of the Spring Boot group ends the loop. -/
def dependenciesLoop (K : Consts) (D : Deps) (dir : String) :
    List gradle.GradleDependency → String × GoMap ConfigType ConfigValue →
    String × GoMap ConfigType ConfigValue
  | [], st => st
  | dependency :: rest, st =>
      if dependency.Group = K.springbootGroup then
        let r := D.getSpringBootAppNameAndProfilesFromDir dir
        let appName := r.1
        let sbps := r.2
        let sbc : artifacts.SpringBootConfig :=
          { SpringBootAppName := appName
            SpringBootProfiles := if sbps.length ≠ 0 then some sbps else none
            SpringBootVersion := if dependency.Version ≠ "" then dependency.Version else "" }
        (appName, st.2.set ConfigType.SpringBootConfigType (ConfigValue.springBoot sbc))
      else dependenciesLoop K D dir rest st

/-- Lines 101-107: the packaging classification read off the build metadata. -/
def classify (K : Consts) (gradleBuild : gradle.Gradle) : artifacts.GradleConfig :=
  let gc : artifacts.GradleConfig := { ArtifactType := K.JarPackaging }
  if (gradleBuild.Metadata.get? K.EarPackaging).isSome then
    { gc with ArtifactType := K.EarPackaging }
  else if (gradleBuild.Metadata.get? K.WarPackaging).isSome then
    { gc with ArtifactType := K.WarPackaging }
  else gc

/-- Lines 79-128: `GradleAnalyser.DirectoryDetect`. -/
def DirectoryDetect (K : Consts) (D : Deps) (t : GradleAnalyser) (dir : String) : DetectResult :=
  let services : GoMap String (List Artifact) := []
  match D.GetFilesInCurrentDirectory dir [gradleBuildFileName] [] with
  | Except.error err => { services := [], err := some err }
  | Except.ok gradleFilePaths =>
    match gradleFilePaths with
    | [] => { services := [], err := none }
    | first :: _ =>
      match D.ParseGardleBuildFile first with
      | Except.error err => { services := [], err := some err }
      | Except.ok gradleBuild =>
        let paths : GoMap PathType (List String) :=
          (GoMap.set [] PathType.GradleBuildFilePathType [D.Join [dir, gradleBuildFileName]]).set
            PathType.ServiceDirPathType [dir]
        let gc := classify K gradleBuild
        let configs : GoMap ConfigType ConfigValue :=
          GoMap.set [] ConfigType.GradleConfigType (ConfigValue.gradle gc)
        let r := dependenciesLoop K D dir gradleBuild.Dependencies ("", configs)
        let appName := r.1
        let ct : Artifact :=
          { Name := "", Type_ := ArtifactType.other "", Configs := r.2, Paths := paths }
        { services := services.set appName (GoMap.getSlice services appName ++ [ct]), err := none }

/-- Lines 159-164: the archive name declared in the block named after the packaging. -/
def declaredArchiveName (gradleBuild : gradle.Gradle) (gradleConfig : artifacts.GradleConfig) :
    String :=
  match gradleBuild.Blocks.get? gradleConfig.ArtifactType with
  | some gb =>
    match GoMap.getSlice gb.Metadata archiveNameC with
    | [] => ""
    | first :: _ => first
  | none => ""

/-- Lines 173-188: the value of `springBootProfilesFlattened`. -/
def flattenProfiles (K : Consts) (D : Deps) (a : Artifact)
    (springbootConfig : artifacts.SpringBootConfig) : String :=
  match springbootConfig.SpringBootProfiles with
  | none => ""
  | some profiles =>
    if profiles.length > 0 then
      let selectedSpringBootProfiles := D.FetchMultiSelectAnswer
        (K.ConfigServicesKey ++ K.Delim ++ a.Name ++ K.Delim ++
          K.ConfigActiveSpringBootProfilesForServiceKeySegment)
        ("Choose Springboot profiles to be used for the service " ++ a.Name)
        ["Selected Springboot profiles will be used for setting configuration for the service "
          ++ a.Name]
        profiles
        profiles
      if selectedSpringBootProfiles.length ≠ 0 then stringsJoin selectedSpringBootProfiles ","
      else ""
    else ""

/-- Lines 190-194: the map `envVariablesMap` before the packaging switch. -/
def initialEnvVariables (springBootProfilesFlattened : String) : GoMap String String :=
  let envVariablesMap : GoMap String String := []
  if springBootProfilesFlattened ≠ "" then
    envVariablesMap.set "SPRING_PROFILES_ACTIVE" springBootProfilesFlattened
  else envVariablesMap

/-- Lines 242-297: the packaging switch building `newArtifact`. -/
def packagedArtifact (K : Consts) (D : Deps) (a : Artifact)
    (gradleConfig : artifacts.GradleConfig) (ir : irtypes.IR) (archiveName javaVersion : String)
    (springBootProfilesFlattened : String) (envVariablesMap : GoMap String String) : Artifact :=
  if gradleConfig.ArtifactType = K.WarPackaging then
    { Name := a.Name
      Type_ := ArtifactType.WarArtifactType
      Configs := GoMap.set [] ConfigType.WarConfigType (ConfigValue.war
        { DeploymentFile := archiveName
          JavaVersion := javaVersion
          BuildContainerName := K.DefaultBuildContainerName
          DeploymentFileDirInBuildContainer := D.Join [K.defaultAppPathInContainer, "target"]
          EnvVariables := envVariablesMap })
      Paths := [] }
  else if gradleConfig.ArtifactType = K.EarPackaging then
    { Name := a.Name
      Type_ := ArtifactType.EarArtifactType
      Configs := GoMap.set [] ConfigType.EarConfigType (ConfigValue.ear
        { DeploymentFile := archiveName
          JavaVersion := javaVersion
          BuildContainerName := K.DefaultBuildContainerName
          DeploymentFileDirInBuildContainer := D.Join [K.defaultAppPathInContainer, "target"]
          EnvVariables := envVariablesMap })
      Paths := [] }
  else
    let ports := D.GetAllServicePorts ir
    let ports := if ports.length = 0 then ports ++ [K.DefaultServicePort] else ports
    let port := D.GetPortForService ports a.Name
    let envVariablesMap :=
      if springBootProfilesFlattened ≠ "" then envVariablesMap.set "SERVER_PORT" (sprintfD port)
      else envVariablesMap.set "PORT" (sprintfD port)
    { Name := a.Name
      Type_ := ArtifactType.JarArtifactType
      Configs := GoMap.set [] ConfigType.JarConfigType (ConfigValue.jar
        { DeploymentFile := archiveName
          JavaVersion := javaVersion
          BuildContainerName := K.DefaultBuildContainerName
          DeploymentFileDirInBuildContainer := D.Join [K.defaultAppPathInContainer, "target"]
          EnvVariables := envVariablesMap
          Port := K.DefaultServicePort })
      Paths := [] }

/-- A call of `os.WriteFile(path, content, perm)`. -/
structure WrittenFile where
  path : String
  content : String
deriving DecidableEq, Repr

/-- What one iteration of the loop over `newArtifacts` appends and writes. -/
structure StepOutput where
  pathMapping : PathMapping
  newArtifact : Artifact
  written : WrittenFile
deriving DecidableEq, Repr

/-- Lines 146-311 for an artifact that passes the three `continue` checks of lines 136-145
and 204-208: what the iteration appends and writes, given the parsed build file.  The map
`newArtifact.Configs` is never nil at line 301 (each case of the switch builds it), and the
nil map `newArtifact.Paths` replaced at line 307 is the empty map. -/
def stepOutput (K : Consts) (D : Deps) (t : GradleAnalyser) (a : Artifact)
    (gradleBuild : gradle.Gradle) : StepOutput :=
  let javaVersion := t.GradleConfig.JavaVersion
  let gradleConfig := (D.GetGradleConfig a).obj
  let irLoaded := D.GetIRConfig a
  let ir := irLoaded.obj
  let irPresent := irLoaded.err.isNone
  let archiveName := declaredArchiveName gradleBuild gradleConfig
  let springbootConfig := (D.GetSpringBootConfig a).obj
  let springBootProfilesFlattened := flattenProfiles K D a springbootConfig
  let envVariablesMap := initialEnvVariables springBootProfilesFlattened
  let sImageName := (D.GetImageNameConfig a).obj
  let sImageName : artifacts.ImageName :=
    if sImageName.ImageName = "" then
      { sImageName with ImageName := D.MakeStringContainerImageNameCompliant a.Name }
    else sImageName
  let sConfig := (D.GetServiceConfig a).obj
  let javaPackage :=
    match D.getJavaPackage (D.Join [t.Env.Context, K.versionMappingFilePath]) javaVersion with
    | Except.error _ => "java-1.8.0-openjdk-devel"
    | Except.ok p => p
  let license := (D.ReadFile (D.Join [t.Env.Context, t.Env.RelTemplatesDir,
    "Dockerfile.license"])).obj
  let gradleBuildDf := (D.ReadFile (D.Join [t.Env.Context, t.Env.RelTemplatesDir,
    "Dockerfile.gradle-build"])).obj
  let tempDir := D.Join [t.Env.TempPath, a.Name]
  let dockerfileTemplate := D.Join [tempDir, "Dockerfile.template"]
  let template := license ++ "\n" ++ gradleBuildDf
  let buildDockerfile := D.Join [tempDir, "Dockerfile.build"]
  let pathMapping : PathMapping :=
    { Type_ := PathMappingType.TemplatePathMappingType
      SrcPath := dockerfileTemplate
      DestPath := buildDockerfile
      TemplateConfig := some { JavaPackageName := javaPackage } }
  let archiveName :=
    if archiveName = "" then sConfig.ServiceName ++ gradleConfig.ArtifactType
    else archiveName
  let newArtifact := packagedArtifact K D a gradleConfig ir archiveName javaVersion
    springBootProfilesFlattened envVariablesMap
  let configs :=
    if irPresent then
      newArtifact.Configs.set ConfigType.IRConfigType
        (ConfigValue.ir (D.injectProperties ir a.Name))
    else newArtifact.Configs
  let configs := configs.set ConfigType.ImageNameConfigType (ConfigValue.imageName sImageName)
  let configs := configs.set ConfigType.ServiceConfigType (ConfigValue.service sConfig)
  let paths := newArtifact.Paths.set PathType.BuildContainerFileType [buildDockerfile]
  let paths := paths.set PathType.ServiceDirPathType
    (GoMap.getSlice a.Paths PathType.ServiceDirPathType)
  { pathMapping := pathMapping
    newArtifact := { newArtifact with Configs := configs, Paths := paths }
    written := { path := dockerfileTemplate, content := template } }

/-- Lines 135-311: the body of the loop over `newArtifacts`; `none` is one of the three
`continue` statements, all taken before anything is appended. -/
def transformOne (K : Consts) (D : Deps) (t : GradleAnalyser) (a : Artifact) :
    Option StepOutput :=
  match GoMap.getSlice a.Paths PathType.GradleBuildFilePathType with
  | [] => none
  | buildFile :: _ =>
    match D.ParseGardleBuildFile buildFile with
    | Except.error _ => none
    | Except.ok gradleBuild =>
      match (D.GetServiceConfig a).err with
      | some _ => none
      | none => some (stepOutput K D t a gradleBuild)

/-- The variables live across the loop over `newArtifacts`, and the writes attempted so far. -/
structure Acc where
  pathMappings : List PathMapping
  createdArtifacts : List Artifact
  written : List WrittenFile
deriving DecidableEq, Repr

/-- Lines 134-312: the loop over `newArtifacts`. -/
def transformLoop (K : Consts) (D : Deps) (t : GradleAnalyser) : List Artifact → Acc → Acc
  | [], acc => acc
  | a :: rest, acc =>
    match transformOne K D t a with
    | none => transformLoop K D t rest acc
    | some out =>
      transformLoop K D t rest
        { pathMappings := acc.pathMappings ++ [out.pathMapping]
          createdArtifacts := acc.createdArtifacts ++ [out.newArtifact]
          written := acc.written ++ [out.written] }

/-- What `Transform` returns, and the files it attempted to write. -/
structure TransformResult where
  pathMappings : List PathMapping
  createdArtifacts : List Artifact
  err : Option String
  written : List WrittenFile
deriving DecidableEq, Repr

/-- Lines 131-314: `GradleAnalyser.Transform`. -/
def Transform (K : Consts) (D : Deps) (t : GradleAnalyser)
    (newArtifacts alreadySeenArtifacts : List Artifact) : TransformResult :=
  let acc := transformLoop K D t newArtifacts
    { pathMappings := [], createdArtifacts := [], written := [] }
  { pathMappings := acc.pathMappings
    createdArtifacts := acc.createdArtifacts
    err := none
    written := acc.written }

end java

/-! ## Auxiliary definitions used in the statements -/

namespace compose

/-- The value of a `uint32` variable after `n` executions of `x++`. -/
def advance (e : Nat) (n : Nat) : Nat := Nat.iterate incUint32 n e

/-- The port entries appended for a sequence of declared ports, from a given `exposedPort`. -/
def allocPorts : Nat → List core.ContainerPort → List composetypes.ServicePortConfig
  | _, [] => []
  | e, p :: r => { Target := uint32 p.ContainerPort, Published := e } :: allocPorts (incUint32 e) r

/-- The containers in visiting order, each with the name of its service. -/
def visits (visited : List irtypes.Service) : List (String × irtypes.Container) :=
  (visited.map (fun s => s.Containers.map (fun c => (s.Name, c)))).flatten

/-- The declared container ports in visiting order: services, then containers, then ports. -/
def declaredPorts (visited : List irtypes.Service) : List core.ContainerPort :=
  (visited.map (fun s => (s.Containers.map (fun c => c.Ports)).flatten)).flatten

/-- One step of the loops of lines 110-132 seen as a single loop over `visits`. -/
def flatStep (st : LoopState) (p : String × irtypes.Container) : LoopState :=
  containerStep p.1 st p.2

/-- The declared ports of a sequence of visited containers. -/
def portsOf (l : List (String × irtypes.Container)) : List core.ContainerPort :=
  (l.map (fun p => p.2.Ports)).flatten

/-- The content of the range variable `e.Value` after the loop over a container's
environment: the value of the last pair, or the initial content when there is none. -/
def cellAfter (init : String) (vars : List core.EnvVar) : String :=
  (vars.getLast?.map (fun x => x.Value)).getD init

/-- The keys of the environment map after the loop over a container's environment. -/
def envKeys : List String → List core.EnvVar → List String
  | ks, [] => ks
  | ks, x :: r => envKeys (x.Name :: ks.filter (fun k => decide (k ≠ x.Name))) r

/-- The service config built for a container that is visited when `exposedPort` is `e` and
the range variable of its environment loop is allocated at address `addr`. -/
def configAt (e addr : Nat) (c : irtypes.Container) : composetypes.ServiceConfig :=
  { ContainerName := c.Name
    Image := c.Image
    Ports := allocPorts e c.Ports
    Environment := (envKeys [] c.Env).map (fun k => (k, addr)) }

/-- All port entries present in the emitted service map. -/
def emittedPorts (m : GoMap String composetypes.ServiceConfig) :
    List composetypes.ServicePortConfig :=
  (m.map (fun kv => kv.2.Ports)).flatten

/-- The value the last pair declared under a name gives to that name: the environment entry
described by the specification. -/
def lastDeclared (vars : List core.EnvVar) (k : String) : Option String :=
  ((vars.filter (fun x => decide (x.Name = k))).getLast?).map (fun x => x.Value)

/-- The environment emitted for one container: lines 120-123 run on their own, read back
through the pointers. -/
def containerEnv (c : irtypes.Container) : GoMap String String :=
  let er := envLoop 0 c.Env [""] []
  resolveEnv er.1 er.2

/-- The published ports of the entry emitted under a service name. -/
def publishedOf (visited : List irtypes.Service) (name : String) : Option (List Nat) :=
  ((buildCompose visited []).1.Services.get? name).map
    (fun cfg => cfg.Ports.map (fun p => p.Published))

end compose

namespace java

open transformertypes

/-- An artifact that none of the three `continue` statements skips: it has a gradle build-file
path, the build file at the first such path parses, and its service config loads. -/
def wellFormed (D : Deps) (a : Artifact) : Bool :=
  match GoMap.getSlice a.Paths PathType.GradleBuildFilePathType with
  | [] => false
  | buildFile :: _ =>
    (match D.ParseGardleBuildFile buildFile with
      | Except.ok _ => true
      | Except.error _ => false) && (D.GetServiceConfig a).err.isNone

/-- The number of artifacts in a detection result, over all service names. -/
def artifactCount (r : DetectResult) : Nat := (r.services.map (fun kv => kv.2.length)).sum

/-- The answer of the resolver to the question `Transform` asks about the profiles of an
artifact (lines 175-181). -/
def resolverAnswer (K : Consts) (D : Deps) (a : Artifact) (profiles : List String) :
    List String :=
  D.FetchMultiSelectAnswer
    (K.ConfigServicesKey ++ K.Delim ++ a.Name ++ K.Delim ++
      K.ConfigActiveSpringBootProfilesForServiceKeySegment)
    ("Choose Springboot profiles to be used for the service " ++ a.Name)
    ["Selected Springboot profiles will be used for setting configuration for the service "
      ++ a.Name]
    profiles
    profiles

/-- The environment overlay of the packaging config (war, ear or jar) an artifact carries. -/
def packagingEnv (art : Artifact) : Option (GoMap String String) :=
  match art.Configs.get? ConfigType.WarConfigType with
  | some (ConfigValue.war c) => some c.EnvVariables
  | _ =>
    match art.Configs.get? ConfigType.EarConfigType with
    | some (ConfigValue.ear c) => some c.EnvVariables
    | _ =>
      match art.Configs.get? ConfigType.JarConfigType with
      | some (ConfigValue.jar c) => some c.EnvVariables
      | _ => none

/-- The port the resolver picks for an artifact (lines 273-277): from the service ports of the
loaded IR, or from the default service port alone when the IR declares none. -/
def pickedPort (K : Consts) (D : Deps) (a : Artifact) : Int :=
  D.GetPortForService
    (if D.GetAllServicePorts (D.GetIRConfig a).obj = [] then [K.DefaultServicePort]
      else D.GetAllServicePorts (D.GetIRConfig a).obj)
    a.Name

/-- The flattened profile selection of an artifact (the value of
`springBootProfilesFlattened`). -/
def flattenedSelection (K : Consts) (D : Deps) (a : Artifact) : String :=
  flattenProfiles K D a (D.GetSpringBootConfig a).obj

end java

/-! ## Concrete inputs -/

namespace sample

open transformertypes

/-- Concrete values for the constants. -/
def consts : Consts :=
  { JarPackaging := "jar"
    WarPackaging := "war"
    EarPackaging := "ear"
    DefaultServicePort := 8080
    DefaultBuildContainerName := "dockerbuild"
    defaultAppPathInContainer := "/app"
    springbootGroup := "org.springframework.boot"
    versionMappingFilePath := "mappings/javapackageversions.yaml"
    ConfigServicesKey := "move2kube.services"
    Delim := "."
    ConfigActiveSpringBootProfilesForServiceKeySegment := "activespringbootprofiles" }

/-- A parsed build file with the given metadata keys and a Spring Boot dependency. -/
def parsed (markers : List String) : gradle.Gradle :=
  { Dependencies := [{ Group := "org.springframework.boot", Name := "starter", Version := "2.5" }]
    Metadata := markers.map (fun k => (k, []))
    Blocks := [] }

/-- Concrete collaborators: configs are read from the artifact when they have the expected
shape, the resolver answers with the default selection, and the services of an IR are visited
in the order given by `order`. -/
def deps (order : GoMap String irtypes.Service → List irtypes.Service) : Deps :=
  { Join := fun xs => "/".intercalate xs
    GetIRConfig := fun a =>
      match a.Configs.get? ConfigType.IRConfigType with
      | some (ConfigValue.ir c) => { obj := c, err := none }
      | _ => { obj := { Name := "", Services := [] }, err := some "no config" }
    GetGradleConfig := fun a =>
      match a.Configs.get? ConfigType.GradleConfigType with
      | some (ConfigValue.gradle c) => { obj := c, err := none }
      | _ => { obj := { ArtifactType := "" }, err := some "no config" }
    GetSpringBootConfig := fun a =>
      match a.Configs.get? ConfigType.SpringBootConfigType with
      | some (ConfigValue.springBoot c) => { obj := c, err := none }
      | _ =>
        { obj := { SpringBootVersion := "", SpringBootAppName := "", SpringBootProfiles := none }
          err := some "no config" }
    GetImageNameConfig := fun a =>
      match a.Configs.get? ConfigType.ImageNameConfigType with
      | some (ConfigValue.imageName c) => { obj := c, err := none }
      | _ => { obj := { ImageName := "" }, err := some "no config" }
    GetServiceConfig := fun a =>
      match a.Configs.get? ConfigType.ServiceConfigType with
      | some (ConfigValue.service c) => { obj := c, err := none }
      | _ => { obj := { ServiceName := "" }, err := some "no config" }
    Preprocess := fun ir => Except.ok ir
    rangeServices := order
    GetFilesInCurrentDirectory := fun dir names _ =>
      if dir = "/src/docs" then Except.ok [] else Except.ok (names.map (fun n => dir ++ "/" ++ n))
    ParseGardleBuildFile := fun path =>
      if path = "/src/broken/build.gradle" then Except.error "parse error"
      else if path = "/src/web/build.gradle" then Except.ok (parsed ["war"])
      else if path = "/src/ent/build.gradle" then Except.ok (parsed ["war", "ear"])
      else Except.ok (parsed [])
    getSpringBootAppNameAndProfilesFromDir := fun _ => ("app", ["dev", "prod"])
    FetchMultiSelectAnswer := fun _ _ _ _ defaults => defaults
    MakeStringContainerImageNameCompliant := fun n => n
    getJavaPackage := fun _ _ => Except.ok "java-17-openjdk-devel"
    ReadFile := fun _ => { obj := "", err := none }
    GetAllServicePorts := fun ir =>
      (ir.Services.map (fun kv =>
        (kv.2.Containers.map (fun c => c.Ports.map (fun p => p.ContainerPort))).flatten)).flatten
    GetPortForService := fun ports _ => ports.headD 8080
    injectProperties := fun ir _ => ir }

/-- The values of the map in the order of the association list. -/
def inOrder (m : GoMap String irtypes.Service) : List irtypes.Service := m.map Prod.snd

/-- The values of the map in the opposite order. -/
def reversed (m : GoMap String irtypes.Service) : List irtypes.Service := (m.map Prod.snd).reverse

def svcA : irtypes.Service :=
  { Name := "a"
    Containers := [{ Name := "a", Image := "a:latest", Ports := [{ ContainerPort := 80 }], Env := [] }] }

def svcB : irtypes.Service :=
  { Name := "b"
    Containers := [{ Name := "b", Image := "b:latest", Ports := [{ ContainerPort := 90 }], Env := [] }] }

/-- A service whose first container is overwritten by its second one. -/
def svcTwo : irtypes.Service :=
  { Name := "two"
    Containers :=
      [{ Name := "first", Image := "first:1", Ports := [{ ContainerPort := 1 }, { ContainerPort := 2 }],
         Env := [] },
       { Name := "second", Image := "second:1", Ports := [{ ContainerPort := 3 }], Env := [] }] }

/-- A container declaring two environment variables with different names and values. -/
def envContainer : irtypes.Container :=
  { Name := "web"
    Image := "web:latest"
    Ports := []
    Env := [{ Name := "A", Value := "1" }, { Name := "B", Value := "2" }] }

def svcEnv : irtypes.Service := { Name := "web", Containers := [envContainer] }

def irAB : irtypes.IR := { Name := "", Services := [("a", svcA), ("b", svcB)] }

def irArtifact : Artifact :=
  { Name := "project"
    Type_ := ArtifactType.IRArtifactType
    Configs := [(ConfigType.IRConfigType, ConfigValue.ir irAB)]
    Paths := [] }

def generator : compose.ComposeGenerator :=
  { Env := { TempPath := "/tmp/m2k", RelTemplatesDir := "templates", Context := "/ctx" }
    ComposeGeneratorConfig := { OutputPath := "deploy/compose" } }

def irEnv : irtypes.IR := { Name := "", Services := [("web", svcEnv)] }

def envArtifact : Artifact :=
  { Name := "project"
    Type_ := ArtifactType.IRArtifactType
    Configs := [(ConfigType.IRConfigType, ConfigValue.ir irEnv)]
    Paths := [] }

/-- A Gradle artifact as the detector and the service analysers leave it. -/
def gradleArtifact (name dir packaging : String) (profiles : Option (List String)) : Artifact :=
  { Name := name
    Type_ := ArtifactType.other ""
    Configs :=
      [(ConfigType.GradleConfigType, ConfigValue.gradle { ArtifactType := packaging }),
       (ConfigType.ServiceConfigType, ConfigValue.service { ServiceName := name }),
       (ConfigType.SpringBootConfigType, ConfigValue.springBoot
          { SpringBootVersion := "2.5", SpringBootAppName := name, SpringBootProfiles := profiles })]
    Paths :=
      [(PathType.GradleBuildFilePathType, [dir ++ "/build.gradle"]),
       (PathType.ServiceDirPathType, [dir])] }

def jarArtifact : Artifact := gradleArtifact "app" "/src/app" "jar" (some ["dev", "prod"])

def warArtifact : Artifact := gradleArtifact "web" "/src/web" "war" none

def earArtifact : Artifact := gradleArtifact "ent" "/src/ent" "ear" none

/-- An artifact without a gradle build-file path entry. -/
def noBuildFileArtifact : Artifact :=
  { Name := "lost"
    Type_ := ArtifactType.other ""
    Configs := [(ConfigType.ServiceConfigType, ConfigValue.service { ServiceName := "lost" })]
    Paths := [(PathType.ServiceDirPathType, ["/src/lost"])] }

/-- An artifact whose only offered profile has the empty name. -/
def emptyProfileArtifact : Artifact := gradleArtifact "app" "/src/app" "jar" (some [""])

def analyser : java.GradleAnalyser :=
  { Env := { TempPath := "/tmp/m2k", RelTemplatesDir := "templates", Context := "/ctx" }
    GradleConfig := { GradleVersion := "7.3", JavaVersion := "17", AppPathInBuildContainer := "/app" } }

/-- A service whose container declares the port -1 (the field is an `int32`). -/
def svcNeg : irtypes.Service :=
  { Name := "neg"
    Containers :=
      [{ Name := "neg", Image := "neg:latest", Ports := [{ ContainerPort := -1 }], Env := [] }] }

def irNeg : irtypes.IR := { Name := "", Services := [("neg", svcNeg)] }

def negArtifact : Artifact :=
  { Name := "project"
    Type_ := ArtifactType.IRArtifactType
    Configs := [(ConfigType.IRConfigType, ConfigValue.ir irNeg)]
    Paths := [] }

/-- Two services stored under different keys of the IR map with the same `Name` field. -/
def svcX1 : irtypes.Service :=
  { Name := "x"
    Containers := [{ Name := "one", Image := "one:1", Ports := [{ ContainerPort := 80 }], Env := [] }] }

def svcX2 : irtypes.Service :=
  { Name := "x"
    Containers := [{ Name := "two", Image := "two:1", Ports := [{ ContainerPort := 90 }], Env := [] }] }

def irXX : irtypes.IR := { Name := "", Services := [("k1", svcX1), ("k2", svcX2)] }

def xxArtifact : Artifact :=
  { Name := "project"
    Type_ := ArtifactType.IRArtifactType
    Configs := [(ConfigType.IRConfigType, ConfigValue.ir irXX)]
    Paths := [] }

end sample

/-! ## Properties -/

namespace GoMap

variable {κ υ : Type} [DecidableEq κ]

theorem get?_nil (k : κ) : get? ([] : GoMap κ υ) k = none := rfl

theorem get?_filter_ne (m : GoMap κ υ) (k k' : κ) (h : k ≠ k') :
    get? (m.filter (fun p => decide (p.1 ≠ k))) k' = get? m k' := by
  induction m with
  | nil => rfl
  | cons p r ih =>
    obtain ⟨a, b⟩ := p
    by_cases ha : a = k
    · have hak : ¬ a = k' := fun e => h (ha.symm.trans e)
      rw [List.filter_cons_of_neg (by simpa using ha)]
      rw [ih]
      simp only [get?, if_neg hak]
    · rw [List.filter_cons_of_pos (by simpa using ha)]
      by_cases hb : a = k'
      · simp only [get?, if_pos hb]
      · simp only [get?, if_neg hb, ih]

theorem get?_set (m : GoMap κ υ) (k k' : κ) (v : υ) :
    (m.set k v).get? k' = if k = k' then some v else m.get? k' := by
  unfold set
  by_cases h : k = k'
  · simp only [get?, if_pos h]
  · simp only [get?, if_neg h]
    exact get?_filter_ne m k k' h

theorem keys_set (m : GoMap κ υ) (k : κ) (v : υ) :
    (m.set k v).keys = k :: m.keys.filter (fun x => decide (x ≠ k)) := by
  unfold set keys
  simp [List.filter_map, Function.comp_def]

theorem mem_keys_set (m : GoMap κ υ) (k k' : κ) (v : υ) :
    k' ∈ (m.set k v).keys ↔ k' = k ∨ k' ∈ m.keys := by
  rw [keys_set]
  by_cases h : k' = k
  · simp [h]
  · simp [h, List.mem_filter]

theorem nodup_keys_set (m : GoMap κ υ) (k : κ) (v : υ) (h : m.keys.Nodup) :
    (m.set k v).keys.Nodup := by
  rw [keys_set]
  refine List.nodup_cons.mpr ⟨?_, h.filter _⟩
  simp [List.mem_filter]

theorem get?_isSome_iff (m : GoMap κ υ) (k : κ) : (m.get? k).isSome ↔ k ∈ m.keys := by
  induction m with
  | nil => simp [get?, keys]
  | cons p r ih =>
    obtain ⟨a, b⟩ := p
    by_cases ha : a = k
    · simp [get?, keys, ha]
    · have hk : ¬ k = a := fun h => ha h.symm
      simp only [get?, ha, if_false, ih]
      simp [keys, hk]

end GoMap

namespace compose

open composetypes

/-! ### The counter `exposedPort` -/

theorem advance_succ (e n : Nat) : advance e (n + 1) = advance (incUint32 e) n := by
  unfold advance
  exact Function.iterate_succ_apply incUint32 n e

theorem advance_add (e m n : Nat) : advance e (m + n) = advance (advance e m) n := by
  induction m generalizing e with
  | zero => simp [advance]
  | succ m ih => rw [Nat.add_right_comm, advance_succ, ih, ← advance_succ]

theorem advance_eq_mod (e n : Nat) (he : e < 4294967296) :
    advance e n = (e + n) % 4294967296 := by
  induction n generalizing e with
  | zero => simp [advance, Nat.mod_eq_of_lt he]
  | succ n ih =>
    have hlt : incUint32 e < 4294967296 := Nat.mod_lt _ (by norm_num)
    rw [advance_succ, ih (incUint32 e) hlt]
    unfold incUint32
    omega

theorem advance_eq_add (e n : Nat) (h : e + n < 4294967296) : advance e n = e + n := by
  rw [advance_eq_mod e n (by omega), Nat.mod_eq_of_lt h]

/-! ### The loop over the ports of a container -/

theorem portsLoop_eq (ps : List core.ContainerPort) (acc : List ServicePortConfig) (e : Nat) :
    portsLoop ps acc e = (acc ++ allocPorts e ps, advance e ps.length) := by
  induction ps generalizing acc e with
  | nil => simp [portsLoop, allocPorts, advance]
  | cons p r ih =>
    simp only [portsLoop, ih, allocPorts, List.length_cons, advance_succ, List.append_assoc,
      List.singleton_append]

theorem allocPorts_append (e : Nat) (a b : List core.ContainerPort) :
    allocPorts e (a ++ b) = allocPorts e a ++ allocPorts (advance e a.length) b := by
  induction a generalizing e with
  | nil => simp [allocPorts, advance]
  | cons p r ih => simp [allocPorts, ih, advance_succ]

theorem allocPorts_published (e : Nat) (ps : List core.ContainerPort) :
    (allocPorts e ps).map (fun p => p.Published) = (List.range ps.length).map (advance e) := by
  induction ps generalizing e with
  | nil => simp [allocPorts]
  | cons p r ih =>
    simp only [allocPorts, List.map_cons, List.length_cons, List.range_succ_eq_map, ih,
      List.map_map]
    refine congrArg₂ _ (by simp [advance]) (List.map_congr_left ?_)
    intro i _
    simp [advance_succ]

theorem allocPorts_target (e : Nat) (ps : List core.ContainerPort) :
    (allocPorts e ps).map (fun p => p.Target) = ps.map (fun p => uint32 p.ContainerPort) := by
  induction ps generalizing e with
  | nil => simp [allocPorts]
  | cons p r ih => simp [allocPorts, ih]

/-! ### The loop over the environment of a container -/

theorem cellAfter_cons (x : String) (v : core.EnvVar) (r : List core.EnvVar) :
    cellAfter x (v :: r) = cellAfter v.Value r := by
  cases r with
  | nil => simp [cellAfter]
  | cons w r2 =>
    unfold cellAfter
    rw [List.getLast?_cons_cons]
    cases hl : (w :: r2).getLast? with
    | none => simp at hl
    | some y => simp

theorem envLoop_heap (h : Heap) (x : String) (vars : List core.EnvVar) (env : MappingWithEquals) :
    (envLoop h.length vars (h ++ [x]) env).1 = h ++ [cellAfter x vars] := by
  induction vars generalizing x env with
  | nil => simp [envLoop, cellAfter]
  | cons v r ih =>
    have hset : (h ++ [x]).set h.length v.Value = h ++ [v.Value] := by
      simp [List.set_append_right]
    simp only [envLoop, hset, ih, cellAfter_cons]

theorem envLoop_env (addr : Nat) (vars : List core.EnvVar) (heap : Heap) (ks : List String) :
    (envLoop addr vars heap (ks.map (fun k => (k, addr)))).2
      = (envKeys ks vars).map (fun k => (k, addr)) := by
  induction vars generalizing heap ks with
  | nil => simp [envLoop, envKeys]
  | cons v r ih =>
    have hset : GoMap.set (ks.map (fun k => (k, addr))) v.Name addr
        = (v.Name :: ks.filter (fun k => decide (k ≠ v.Name))).map (fun k => (k, addr)) := by
      unfold GoMap.set
      simp [List.filter_map, Function.comp_def]
    simp only [envLoop, envKeys, hset, ih]

theorem mem_envKeys (ks : List String) (vars : List core.EnvVar) (k : String) :
    k ∈ envKeys ks vars ↔ k ∈ ks ∨ k ∈ vars.map (fun x => x.Name) := by
  induction vars generalizing ks with
  | nil => simp [envKeys]
  | cons v r ih =>
    simp only [envKeys, ih, List.mem_cons, List.mem_filter, List.map_cons]
    by_cases hk : k = v.Name
    · simp [hk]
    · simp [hk]

theorem nodup_envKeys (ks : List String) (vars : List core.EnvVar) (h : ks.Nodup) :
    (envKeys ks vars).Nodup := by
  induction vars generalizing ks with
  | nil => simpa [envKeys] using h
  | cons v r ih =>
    simp only [envKeys]
    apply ih
    refine List.nodup_cons.mpr ⟨?_, h.filter _⟩
    simp [List.mem_filter]

/-! ### One container, and the loops as one loop over the visited containers -/

theorem containerStep_eq (n : String) (st : LoopState) (c : irtypes.Container) :
    containerStep n st c =
      { exposedPort := advance st.exposedPort c.Ports.length
        Services := st.Services.set n (configAt st.exposedPort st.heap.length c)
        heap := st.heap ++ [cellAfter "" c.Env]
        handedOut := st.handedOut ++ allocPorts st.exposedPort c.Ports } := by
  have henv := envLoop_env st.heap.length c.Env (st.heap ++ [""]) []
  simp only [List.map_nil] at henv
  simp only [containerStep, portsLoop_eq, envLoop_heap, henv, configAt, List.nil_append]

theorem containersLoop_eq (n : String) (cs : List irtypes.Container) (st : LoopState) :
    containersLoop n cs st = (cs.map (fun c => (n, c))).foldl flatStep st := by
  induction cs generalizing st with
  | nil => rfl
  | cons c r ih => simp only [containersLoop, ih, List.map_cons, List.foldl_cons, flatStep]

theorem servicesLoop_eq (visited : List irtypes.Service) (st : LoopState) :
    servicesLoop visited st = (visits visited).foldl flatStep st := by
  induction visited generalizing st with
  | nil => rfl
  | cons s r ih =>
    simp only [servicesLoop, ih, containersLoop_eq, visits, List.map_cons, List.flatten_cons,
      List.foldl_append]

theorem visits_append (a b : List irtypes.Service) : visits (a ++ b) = visits a ++ visits b := by
  simp [visits]

theorem visits_cons (s : irtypes.Service) (r : List irtypes.Service) :
    visits (s :: r) = s.Containers.map (fun c => (s.Name, c)) ++ visits r := by
  simp [visits]

theorem portsOf_append (a b : List (String × irtypes.Container)) :
    portsOf (a ++ b) = portsOf a ++ portsOf b := by
  simp [portsOf]

theorem portsOf_visits (visited : List irtypes.Service) :
    portsOf (visits visited) = declaredPorts visited := by
  induction visited with
  | nil => rfl
  | cons s r ih =>
    rw [visits_cons, portsOf_append, ih]
    simp [portsOf, declaredPorts, List.map_map, Function.comp_def]

theorem mem_names_visits (visited : List irtypes.Service) (k : String) :
    k ∈ (visits visited).map Prod.fst ↔ ∃ s ∈ visited, s.Name = k ∧ s.Containers ≠ [] := by
  induction visited with
  | nil => simp [visits]
  | cons s r ih =>
    rw [visits_cons, List.map_append, List.mem_append, ih]
    have hs : k ∈ (s.Containers.map (fun c => (s.Name, c))).map Prod.fst
        ↔ s.Name = k ∧ s.Containers ≠ [] := by
      cases hc : s.Containers with
      | nil => simp
      | cons c cs =>
        simp only [List.map_cons, List.map_map, List.mem_cons, List.mem_map, Function.comp_def]
        constructor
        · rintro (h | ⟨_, _, h⟩)
          · exact ⟨h.symm, by simp⟩
          · exact ⟨h, by simp⟩
        · rintro ⟨h, _⟩
          exact Or.inl h.symm
    rw [hs]
    simp only [List.mem_cons, exists_eq_or_imp]

theorem fold_state (l : List (String × irtypes.Container)) (st : LoopState) :
    (l.foldl flatStep st).exposedPort = advance st.exposedPort (portsOf l).length
    ∧ (l.foldl flatStep st).heap = st.heap ++ l.map (fun p => cellAfter "" p.2.Env)
    ∧ (l.foldl flatStep st).handedOut = st.handedOut ++ allocPorts st.exposedPort (portsOf l) := by
  induction l generalizing st with
  | nil => simp [portsOf, advance, allocPorts]
  | cons p r ih =>
    obtain ⟨h1, h2, h3⟩ := ih (flatStep st p)
    have hp : portsOf (p :: r) = p.2.Ports ++ portsOf r := by simp [portsOf]
    rw [List.foldl_cons, h1, h2, h3, hp]
    simp only [List.length_append, advance_add, allocPorts_append, flatStep, containerStep_eq,
      List.map_cons, List.append_assoc, List.singleton_append, and_self]

theorem fold_get?_of_not_mem (l : List (String × irtypes.Container)) (st : LoopState)
    (k : String) (h : k ∉ l.map Prod.fst) :
    (l.foldl flatStep st).Services.get? k = st.Services.get? k := by
  induction l generalizing st with
  | nil => rfl
  | cons p r ih =>
    simp only [List.map_cons, List.mem_cons, not_or] at h
    rw [List.foldl_cons, ih _ h.2]
    simp only [flatStep, containerStep_eq, GoMap.get?_set]
    rw [if_neg (fun e => h.1 e.symm)]

theorem fold_mem_keys (l : List (String × irtypes.Container)) (st : LoopState) (k : String) :
    k ∈ (l.foldl flatStep st).Services.keys ↔ k ∈ st.Services.keys ∨ k ∈ l.map Prod.fst := by
  induction l generalizing st with
  | nil => simp
  | cons p r ih =>
    rw [List.foldl_cons, ih]
    simp only [flatStep, containerStep_eq, GoMap.mem_keys_set, List.map_cons, List.mem_cons]
    tauto

theorem fold_nodup_keys (l : List (String × irtypes.Container)) (st : LoopState)
    (h : st.Services.keys.Nodup) : (l.foldl flatStep st).Services.keys.Nodup := by
  induction l generalizing st with
  | nil => exact h
  | cons p r ih =>
    rw [List.foldl_cons]
    apply ih
    simp only [flatStep, containerStep_eq]
    exact GoMap.nodup_keys_set _ _ _ h

theorem fold_get?_last (l1 l2 : List (String × irtypes.Container)) (k : String)
    (c : irtypes.Container) (st : LoopState) (h : k ∉ l2.map Prod.fst) :
    ((l1 ++ (k, c) :: l2).foldl flatStep st).Services.get? k
      = some (configAt (advance st.exposedPort (portsOf l1).length)
          (st.heap.length + l1.length) c) := by
  obtain ⟨h1, h2, -⟩ := fold_state l1 st
  rw [List.foldl_append, List.foldl_cons, fold_get?_of_not_mem _ _ _ h]
  simp only [flatStep, containerStep_eq, GoMap.get?_set, if_true, h1, h2, List.length_append,
    List.length_map]

/-! ### The entries of the emitted service map -/

theorem emittedPorts_filter (m : GoMap String ServiceConfig)
    (q : String × ServiceConfig → Bool) : (emittedPorts (m.filter q)).Sublist (emittedPorts m) := by
  induction m with
  | nil => simp [emittedPorts]
  | cons x r ih =>
    by_cases hq : q x = true
    · rw [List.filter_cons_of_pos hq]
      simp only [emittedPorts, List.map_cons, List.flatten_cons] at ih ⊢
      exact List.Sublist.append (List.Sublist.refl _) ih
    · rw [List.filter_cons_of_neg hq]
      simp only [emittedPorts, List.map_cons, List.flatten_cons] at ih ⊢
      exact ih.trans (List.sublist_append_right _ _)

theorem fold_emitted_subperm (l : List (String × irtypes.Container)) (st : LoopState)
    (h : (emittedPorts st.Services).Subperm st.handedOut) :
    (emittedPorts (l.foldl flatStep st).Services).Subperm (l.foldl flatStep st).handedOut := by
  induction l generalizing st with
  | nil => exact h
  | cons p r ih =>
    rw [List.foldl_cons]
    apply ih
    simp only [flatStep, containerStep_eq]
    have h1 : emittedPorts (st.Services.set p.1 (configAt st.exposedPort st.heap.length p.2))
        = allocPorts st.exposedPort p.2.Ports
          ++ emittedPorts (st.Services.filter (fun q => decide (q.1 ≠ p.1))) := by
      simp [emittedPorts, GoMap.set, configAt]
    rw [h1]
    have h2 : (emittedPorts (st.Services.filter (fun q => decide (q.1 ≠ p.1)))).Subperm
        st.handedOut := (emittedPorts_filter _ _).subperm.trans h
    exact ((List.subperm_append_left _).mpr h2).trans List.perm_append_comm.subperm

theorem nodup_map_of_subperm {α β : Type} (f : α → β) {l1 l2 : List α} (h : l1.Subperm l2)
    (hn : (l2.map f).Nodup) : (l1.map f).Nodup := by
  obtain ⟨l, hp, hs⟩ := h
  exact (hp.map f).nodup_iff.mp (hn.sublist (hs.map f))

theorem resolveEnv_const (mem : Heap) (ks : List String) (addr : Nat) :
    resolveEnv mem (ks.map (fun k => (k, addr))) = ks.map (fun k => (k, mem.deref addr)) := by
  simp [resolveEnv, Function.comp_def]

theorem containerEnv_eq (c : irtypes.Container) :
    containerEnv c = (envKeys [] c.Env).map (fun k => (k, cellAfter "" c.Env)) := by
  have h1 := envLoop_heap [] "" c.Env []
  have h2 := envLoop_env 0 c.Env [""] []
  simp only [List.length_nil, List.nil_append, List.map_nil] at h1 h2
  unfold containerEnv
  simp only [h1, h2, resolveEnv_const]
  simp [Heap.deref]

theorem deref_append_map {α : Type} (h : Heap) (l1 l2 : List α) (x : α) (f : α → String) :
    Heap.deref (h ++ (l1 ++ x :: l2).map f) (h.length + l1.length) = f x := by
  unfold Heap.deref
  rw [List.getD_eq_getElem?_getD, List.getElem?_append_right (by omega)]
  have hidx : h.length + l1.length - h.length = (l1.map f).length := by simp
  rw [hidx, List.map_append, List.getElem?_append_right (Nat.le_refl _)]
  simp

theorem runLoops_eq (visited : List irtypes.Service) (heap : Heap) :
    runLoops visited heap = (visits visited).foldl flatStep
      { exposedPort := 8080, Services := [], heap := heap, handedOut := [] } := by
  unfold runLoops
  exact servicesLoop_eq _ _

/-- C1, as the code has it: starting from `exposedPort = 8080`, the port entries appended
while visiting the services, their containers and the ports of each container in order carry
the published ports 8080, 8081, ..., 8080 + n - 1, where n is the number of declared container
ports visited and n < 2^32 - 8080; the counter ends at 8080 + n; the target of each entry is
the declared container port converted by `uint32`, which is the declared port itself when
that port is not negative and the declared port plus 2^32 when it is negative; no published
port is handed out twice, and the same holds of the port entries left in the emitted service
map, all of which are among the entries handed out. -/
theorem published_ports_consecutive (visited : List irtypes.Service) (heap : Heap)
    (h : (declaredPorts visited).length < 4294967296 - 8080) :
    (runLoops visited heap).handedOut.map (fun p => p.Published)
        = (List.range (declaredPorts visited).length).map (fun i => 8080 + i)
    ∧ (runLoops visited heap).handedOut.map (fun p => p.Target)
        = (declaredPorts visited).map (fun p => uint32 p.ContainerPort)
    ∧ (∀ p ∈ declaredPorts visited, 0 ≤ p.ContainerPort → p.ContainerPort < 4294967296 →
        (uint32 p.ContainerPort : Int) = p.ContainerPort)
    ∧ (∀ p ∈ declaredPorts visited, p.ContainerPort < 0 → -4294967296 ≤ p.ContainerPort →
        (uint32 p.ContainerPort : Int) = p.ContainerPort + 4294967296)
    ∧ ((runLoops visited heap).handedOut.map (fun p => p.Published)).Nodup
    ∧ (runLoops visited heap).exposedPort = 8080 + (declaredPorts visited).length
    ∧ (∀ p ∈ emittedPorts (buildCompose visited heap).1.Services,
        p ∈ (runLoops visited heap).handedOut)
    ∧ ((emittedPorts (buildCompose visited heap).1.Services).map (fun p => p.Published)).Nodup := by
  obtain ⟨h1, -, h3⟩ := fold_state (visits visited)
    { exposedPort := 8080, Services := [], heap := heap, handedOut := [] }
  rw [← runLoops_eq] at h1 h3
  simp only [portsOf_visits, List.nil_append] at h1 h3
  have hpub : (runLoops visited heap).handedOut.map (fun p => p.Published)
      = (List.range (declaredPorts visited).length).map (fun i => 8080 + i) := by
    rw [h3, allocPorts_published]
    apply List.map_congr_left
    intro i hi
    rw [List.mem_range] at hi
    exact advance_eq_add 8080 i (by omega)
  have hnd : ((runLoops visited heap).handedOut.map (fun p => p.Published)).Nodup := by
    rw [hpub]
    exact (List.nodup_range _).map (fun a b hab => by omega)
  have hsub : (emittedPorts (buildCompose visited heap).1.Services).Subperm
      (runLoops visited heap).handedOut := by
    have := fold_emitted_subperm (visits visited)
      { exposedPort := 8080, Services := [], heap := heap, handedOut := [] }
      (by simp [emittedPorts])
    rw [← runLoops_eq] at this
    exact this
  refine ⟨hpub, ?_, ?_, ?_, hnd, ?_, ?_, ?_⟩
  · rw [h3, allocPorts_target]
  · intro p _ h0 hlt
    unfold uint32
    rw [Int.emod_eq_of_lt h0 hlt]
    exact Int.toNat_of_nonneg h0
  · intro p _ hneg hge
    unfold uint32
    rw [Int.toNat_of_nonneg (Int.emod_nonneg _ (by norm_num))]
    omega
  · rw [h1]
    exact advance_eq_add 8080 _ (by omega)
  · exact fun p hp => hsub.subset hp
  · exact nodup_map_of_subperm _ hsub hnd

theorem visits_split (pre post : List irtypes.Service) (s : irtypes.Service)
    (cs : List irtypes.Container) (last : irtypes.Container) (hs : s.Containers = cs ++ [last]) :
    visits (pre ++ s :: post)
      = (visits pre ++ cs.map (fun c => (s.Name, c))) ++ (s.Name, last) :: visits post := by
  rw [visits_append, visits_cons, hs]
  simp

theorem buildCompose_get?_last (heap : Heap) (pre post : List irtypes.Service)
    (s : irtypes.Service) (cs : List irtypes.Container) (last : irtypes.Container)
    (hs : s.Containers = cs ++ [last])
    (hpost : ∀ s' ∈ post, s'.Containers ≠ [] → s'.Name ≠ s.Name) :
    (buildCompose (pre ++ s :: post) heap).1.Services.get? s.Name
      = some (configAt
          (advance 8080 ((declaredPorts pre).length + ((cs.map (fun c => c.Ports)).flatten).length))
          (heap.length + ((visits pre).length + cs.length)) last) := by
  have hnot : s.Name ∉ (visits post).map Prod.fst := by
    rw [mem_names_visits]
    rintro ⟨s', hmem, hname, hne⟩
    exact hpost s' hmem hne hname
  have hfold := fold_get?_last (visits pre ++ cs.map (fun c => (s.Name, c))) (visits post) s.Name
    last { exposedPort := 8080, Services := [], heap := heap, handedOut := [] } hnot
  rw [← visits_split pre post s cs last hs, ← runLoops_eq] at hfold
  have hports : (portsOf (visits pre ++ cs.map (fun c => (s.Name, c)))).length
      = (declaredPorts pre).length + ((cs.map (fun c => c.Ports)).flatten).length := by
    rw [portsOf_append, portsOf_visits, List.length_append]
    simp [portsOf, List.map_map, Function.comp_def]
  simp only [buildCompose, hfold, hports, List.length_append, List.length_map]

theorem buildCompose_heap (visited : List irtypes.Service) (heap : Heap) :
    (buildCompose visited heap).2 = heap ++ (visits visited).map (fun p => cellAfter "" p.2.Env) := by
  obtain ⟨-, h2, -⟩ := fold_state (visits visited)
    { exposedPort := 8080, Services := [], heap := heap, handedOut := [] }
  rw [← runLoops_eq] at h2
  simpa [buildCompose] using h2

theorem buildCompose_nodup_keys (visited : List irtypes.Service) (heap : Heap) :
    (buildCompose visited heap).1.Services.keys.Nodup := by
  have := fold_nodup_keys (visits visited)
    { exposedPort := 8080, Services := [], heap := heap, handedOut := [] }
    (by simp [GoMap.keys])
  rw [← runLoops_eq] at this
  exact this

theorem buildCompose_mem_keys (visited : List irtypes.Service) (heap : Heap) (k : String) :
    k ∈ (buildCompose visited heap).1.Services.keys
      ↔ ∃ s ∈ visited, s.Name = k ∧ s.Containers ≠ [] := by
  have := fold_mem_keys (visits visited)
    { exposedPort := 8080, Services := [], heap := heap, handedOut := [] } k
  rw [← runLoops_eq] at this
  rw [← mem_names_visits]
  simpa [buildCompose, GoMap.keys] using this

theorem configAt_published (e addr : Nat) (c : irtypes.Container) (before : Nat)
    (he : e = advance 8080 before) :
    (configAt e addr c).Ports.map (fun p => p.Published)
      = (List.range c.Ports.length).map (fun i => (8080 + before + i) % 4294967296) := by
  subst he
  simp only [configAt, allocPorts_published]
  apply List.map_congr_left
  intro i _
  rw [← advance_add, advance_eq_mod 8080 (before + i) (by norm_num), Nat.add_assoc]

theorem configAt_environment_keys (e addr : Nat) (c : irtypes.Container) :
    (configAt e addr c).Environment.keys.Nodup
    ∧ ∀ k, k ∈ (configAt e addr c).Environment.keys ↔ k ∈ c.Env.map (fun x => x.Name) := by
  have hk : GoMap.keys (configAt e addr c).Environment = envKeys [] c.Env := by
    simp [configAt, GoMap.keys, Function.comp_def]
  rw [hk]
  refine ⟨nodup_envKeys [] c.Env List.nodup_nil, fun k => ?_⟩
  rw [mem_envKeys]
  simp

/-- C10, as the code has it: the emitted compose document has version "3.5"; its service map
is keyed by service name and has exactly one entry per distinct name borne by a visited
service with at least one container; the entry under a name is built from the last visited
container of that name alone: it has that container's name and image, one port entry per
port that container declares, with the declared port converted by `uint32` as target and
published ports that continue after all ports declared before it (those of the earlier
containers of the same service included), and an environment whose keys are exactly the names
that container declares. -/
theorem compose_service_entries (visited : List irtypes.Service) (heap : Heap) :
    (buildCompose visited heap).1.Version = "3.5"
    ∧ (buildCompose visited heap).1.Services.keys.Nodup
    ∧ (∀ k, k ∈ (buildCompose visited heap).1.Services.keys
        ↔ ∃ s ∈ visited, s.Name = k ∧ s.Containers ≠ [])
    ∧ (buildCompose visited heap).1.Services.length
        = (((visited.filter (fun s => decide (s.Containers ≠ []))).map
            (fun s => s.Name)).dedup).length
    ∧ (∀ (pre post : List irtypes.Service) (s : irtypes.Service)
        (cs : List irtypes.Container) (last : irtypes.Container),
        visited = pre ++ s :: post → s.Containers = cs ++ [last] →
        (∀ s' ∈ post, s'.Containers ≠ [] → s'.Name ≠ s.Name) →
        ∃ cfg, (buildCompose visited heap).1.Services.get? s.Name = some cfg
          ∧ cfg.ContainerName = last.Name
          ∧ cfg.Image = last.Image
          ∧ cfg.Ports.map (fun p => p.Target) = last.Ports.map (fun p => uint32 p.ContainerPort)
          ∧ cfg.Ports.map (fun p => p.Published)
              = (List.range last.Ports.length).map (fun i =>
                  (8080 + ((declaredPorts pre).length
                    + ((cs.map (fun c => c.Ports)).flatten).length) + i) % 4294967296)
          ∧ cfg.Environment.keys.Nodup
          ∧ ∀ k, k ∈ cfg.Environment.keys ↔ k ∈ last.Env.map (fun x => x.Name)) := by
  have hnodup := buildCompose_nodup_keys visited heap
  have hmem := buildCompose_mem_keys visited heap
  refine ⟨rfl, hnodup, hmem, ?_, ?_⟩
  · have hperm : (buildCompose visited heap).1.Services.keys.Perm
        (((visited.filter (fun s => decide (s.Containers ≠ []))).map (fun s => s.Name)).dedup) := by
      rw [List.perm_ext_iff_of_nodup hnodup (List.nodup_dedup _)]
      intro k
      rw [hmem k, List.mem_dedup]
      simp only [List.mem_map, List.mem_filter, decide_eq_true_eq]
      constructor
      · rintro ⟨s', h1, h2, h3⟩
        exact ⟨s', ⟨h1, h3⟩, h2⟩
      · rintro ⟨s', ⟨h1, h3⟩, h2⟩
        exact ⟨s', h1, h2, h3⟩
    have hlen := hperm.length_eq
    simpa [GoMap.keys] using hlen
  · intro pre post s cs last hv hs hpost
    subst hv
    refine ⟨_, buildCompose_get?_last heap pre post s cs last hs hpost, rfl, rfl, ?_, ?_,
      (configAt_environment_keys _ _ last).1, (configAt_environment_keys _ _ last).2⟩
    · simp only [configAt, allocPorts_target]
    · exact configAt_published _ _ last _ rfl

/-- Witness of the amended C10 on a two-container service visited between two others. -/
theorem compose_service_entries_witness :
    (buildCompose [sample.svcA, sample.svcTwo, sample.svcB] []).1.Services.length = 3
    ∧ ∃ cfg, (buildCompose [sample.svcA, sample.svcTwo, sample.svcB] []).1.Services.get? "two"
          = some cfg
        ∧ cfg.ContainerName = "second"
        ∧ cfg.Ports.map (fun p => p.Published) = [8083] := by
  have h := compose_service_entries [sample.svcA, sample.svcTwo, sample.svcB] []
  refine ⟨h.2.2.2.1.trans (by decide), ?_⟩
  obtain ⟨cfg, h1, h2, -, -, h5, -, -⟩ := h.2.2.2.2 [sample.svcA] [sample.svcB] sample.svcTwo
    [{ Name := "first", Image := "first:1", Ports := [{ ContainerPort := 1 }, { ContainerPort := 2 }],
       Env := [] }]
    { Name := "second", Image := "second:1", Ports := [{ ContainerPort := 3 }], Env := [] }
    rfl rfl (by decide)
  exact ⟨cfg, h1, h2, h5.trans (by decide)⟩

/-- C10 fails as stated.  Two services held under different keys of the IR map with the same
name `x`, each with one container, leave one entry in the emitted service map, not one per
service with a container: the entry is keyed by `service.Name` and the second assignment
replaces the first.  `Transform` writes that one-entry document for an IR with these two
services. -/
theorem one_entry_for_two_services_of_one_name :
    ([sample.svcX1, sample.svcX2].filter (fun s => decide (s.Containers ≠ []))).length = 2
    ∧ (buildCompose [sample.svcX1, sample.svcX2] []).1.Services.length = 1
    ∧ (buildCompose [sample.svcX1, sample.svcX2] []).1.Services.keys = ["x"]
    ∧ (sample.irXX.Services.map Prod.fst).Nodup
    ∧ (Transform (sample.deps sample.inOrder) sample.generator [sample.xxArtifact] []).emitted.map
        (fun e => e.doc.Services.keys) = [["x"]] := by
  decide

/-- Witness of C1 on three services declaring four container ports. -/
theorem published_ports_consecutive_witness :
    (declaredPorts [sample.svcA, sample.svcTwo, sample.svcB]).length < 4294967296 - 8080
    ∧ (runLoops [sample.svcA, sample.svcTwo, sample.svcB] []).handedOut.map (fun p => p.Published)
        = (List.range (declaredPorts [sample.svcA, sample.svcTwo, sample.svcB]).length).map
            (fun i => 8080 + i) :=
  ⟨by decide, (published_ports_consecutive [sample.svcA, sample.svcTwo, sample.svcB] []
    (by decide)).1⟩

/-- C1 fails as stated.  For the container declaring the port -1 the only port entry has the
target 4294967295, which is not the declared container port; `Transform` writes that entry
for an IR holding this container. -/
theorem target_of_negative_port_is_not_declared_port :
    (declaredPorts [sample.svcNeg]).length < 4294967296 - 8080
    ∧ (declaredPorts [sample.svcNeg]).map (fun p => p.ContainerPort) = [-1]
    ∧ (runLoops [sample.svcNeg] []).handedOut.map (fun p => p.Target) = [4294967295]
    ∧ (runLoops [sample.svcNeg] []).handedOut.map (fun p => (p.Target : Int))
        ≠ (declaredPorts [sample.svcNeg]).map (fun p => p.ContainerPort)
    ∧ (Transform (sample.deps sample.inOrder) sample.generator [sample.negArtifact] []).emitted.map
        (fun e => (e.doc.Services.get? "neg").map (fun cfg => cfg.Ports))
        = [some [{ Target := 4294967295, Published := 8080 }]] := by
  decide

/-! ### The environment of a container -/

theorem containerEnv_keys (c : irtypes.Container) :
    (containerEnv c).keys.Nodup
    ∧ ∀ k, k ∈ (containerEnv c).keys ↔ k ∈ c.Env.map (fun x => x.Name) := by
  rw [containerEnv_eq]
  have hk : GoMap.keys ((envKeys [] c.Env).map (fun k => (k, cellAfter "" c.Env)))
      = envKeys [] c.Env := by
    simp [GoMap.keys, Function.comp_def]
  rw [hk]
  refine ⟨nodup_envKeys [] c.Env List.nodup_nil, fun k => ?_⟩
  rw [mem_envKeys]
  simp

theorem get?_map_const (ks : List String) (v : String) (k : String) (h : k ∈ ks) :
    GoMap.get? (ks.map (fun x => (x, v))) k = some v := by
  induction ks with
  | nil => simp at h
  | cons a r ih =>
    by_cases ha : a = k
    · simp [GoMap.get?, ha]
    · have hr : k ∈ r := by
        rcases List.mem_cons.mp h with h1 | h1
        · exact absurd h1.symm ha
        · exact h1
      simp only [List.map_cons, GoMap.get?, if_neg ha, ih hr]

/-- Every declared name is emitted with the content of the range variable after the loop,
that is, with the value of the last pair of the sequence, whatever its name. -/
theorem containerEnv_get? (c : irtypes.Container) (k : String)
    (h : k ∈ c.Env.map (fun x => x.Name)) :
    (containerEnv c).get? k = some (cellAfter "" c.Env) := by
  rw [containerEnv_eq]
  apply get?_map_const
  rw [mem_envKeys]
  exact Or.inr h

/-- C8: On the container declaring `A=1` and `B=2`, the environment of the emitted service has
exactly the keys `A` and `B`, but `A` is emitted with the value `2` of the other variable,
where the last pair declared with the name `A` has the value `1`; the document written by
`Transform` for an IR holding this container shows the same. -/
theorem environment_value_of_other_variable :
    containerEnv sample.envContainer = [("B", "2"), ("A", "2")]
    ∧ (containerEnv sample.envContainer).get? "A" = some "2"
    ∧ lastDeclared sample.envContainer.Env "A" = some "1"
    ∧ (Transform (sample.deps sample.inOrder) sample.generator [sample.envArtifact] []).emitted.map
        (fun e => (e.doc.Services.get? "web").map (fun cfg => resolveEnv e.mem cfg.Environment))
        = [some [("B", "2"), ("A", "2")]] := by
  decide

/-! ### The order in which the services are visited -/

theorem declaredPorts_length_perm (l1 l2 : List irtypes.Service) (h : l1.Perm l2) :
    (declaredPorts l1).length = (declaredPorts l2).length := by
  unfold declaredPorts
  exact ((h.map _).flatten).length_eq

theorem handedOut_published (visited : List irtypes.Service) (heap : Heap) :
    (runLoops visited heap).handedOut.map (fun p => p.Published)
      = (List.range (declaredPorts visited).length).map (advance 8080) := by
  obtain ⟨-, -, h3⟩ := fold_state (visits visited)
    { exposedPort := 8080, Services := [], heap := heap, handedOut := [] }
  rw [← runLoops_eq] at h3
  simp only [portsOf_visits, List.nil_append] at h3
  rw [h3, allocPorts_published]

theorem publishedOf_none (visited : List irtypes.Service) (name : String)
    (h : ∀ s ∈ visited, s.Name = name → s.Containers = []) : publishedOf visited name = none := by
  have hk : name ∉ (buildCompose visited []).1.Services.keys := by
    rw [buildCompose_mem_keys visited [] name]
    rintro ⟨s, hs, hn, hc⟩
    exact hc (h s hs hn)
  rw [← GoMap.get?_isSome_iff] at hk
  unfold publishedOf
  cases hg : (buildCompose visited []).1.Services.get? name with
  | none => rfl
  | some v => simp [hg] at hk

theorem publishedOf_split (pre post : List irtypes.Service) (s : irtypes.Service)
    (cs : List irtypes.Container) (last : irtypes.Container) (hs : s.Containers = cs ++ [last])
    (hpost : ∀ s' ∈ post, s'.Containers ≠ [] → s'.Name ≠ s.Name) :
    publishedOf (pre ++ s :: post) s.Name
      = some ((allocPorts
          (advance 8080 ((declaredPorts pre).length + ((cs.map (fun c => c.Ports)).flatten).length))
          last.Ports).map (fun p => p.Published)) := by
  unfold publishedOf
  rw [buildCompose_get?_last [] pre post s cs last hs hpost]
  rfl

/-- C2, as the code has it: `Transform` does not sort; it numbers the ports in the order in
which the range over `ir.Services` visits the services.  For two visiting orders of the same
services (with distinct names) the same published ports are handed out in the same sequence,
and the entry of a service carries the same published ports in both orders whenever the
services visited before it declare the same number of container ports in both. -/
theorem published_ports_follow_visiting_order (l1 l2 : List irtypes.Service)
    (hperm : l1.Perm l2) (hnames : (l1.map (fun s => s.Name)).Nodup) :
    (runLoops l1 []).handedOut.map (fun p => p.Published)
        = (runLoops l2 []).handedOut.map (fun p => p.Published)
    ∧ ∀ (s : irtypes.Service) (pre1 post1 pre2 post2 : List irtypes.Service),
        l1 = pre1 ++ s :: post1 → l2 = pre2 ++ s :: post2 →
        (declaredPorts pre1).length = (declaredPorts pre2).length →
        publishedOf l1 s.Name = publishedOf l2 s.Name := by
  refine ⟨?_, ?_⟩
  · rw [handedOut_published, handedOut_published, declaredPorts_length_perm l1 l2 hperm]
  · intro s pre1 post1 pre2 post2 h1 h2 hlen
    have hnames2 : (l2.map (fun s => s.Name)).Nodup := (hperm.map _).nodup_iff.mp hnames
    -- no other service of either order has the name of `s`
    have huniq : ∀ (pre post : List irtypes.Service),
        ((pre ++ s :: post).map (fun s => s.Name)).Nodup →
        ∀ s' ∈ pre ++ post, s'.Name ≠ s.Name := by
      intro pre post hn s' hs' heq
      rw [List.map_append, List.map_cons] at hn
      have hn2 := (List.nodup_middle.mp hn)
      have hnot := (List.nodup_cons.mp hn2).1
      apply hnot
      rw [← List.map_append, ← heq]
      exact List.mem_map_of_mem _ hs'
    subst h1
    subst h2
    have hu1 := huniq pre1 post1 hnames
    have hu2 := huniq pre2 post2 hnames2
    rcases List.eq_nil_or_concat s.Containers with hc | ⟨cs, last, hc⟩
    · have hnone : ∀ (pre post : List irtypes.Service),
          (∀ s' ∈ pre ++ post, s'.Name ≠ s.Name) →
          publishedOf (pre ++ s :: post) s.Name = none := by
        intro pre post hu
        apply publishedOf_none
        intro s' hs' hn
        rcases List.mem_append.mp hs' with hp | hp
        · exact absurd hn (hu s' (List.mem_append_left _ hp))
        · rcases List.mem_cons.mp hp with hp | hp
          · rw [hp]
            exact hc
          · exact absurd hn (hu s' (List.mem_append_right _ hp))
      rw [hnone pre1 post1 hu1, hnone pre2 post2 hu2]
    · have hc2 : s.Containers = cs ++ [last] := by simpa using hc
      rw [publishedOf_split pre1 post1 s cs last hc2
          (fun s' hs' _ => hu1 s' (List.mem_append_right _ hs')),
        publishedOf_split pre2 post2 s cs last hc2
          (fun s' hs' _ => hu2 s' (List.mem_append_right _ hs')), hlen]

/-- Witness of the amended C2: the service visited first in both orders. -/
theorem published_ports_follow_visiting_order_witness :
    [sample.svcTwo, sample.svcA, sample.svcB].Perm [sample.svcTwo, sample.svcB, sample.svcA]
    ∧ ([sample.svcTwo, sample.svcA, sample.svcB].map (fun s => s.Name)).Nodup
    ∧ publishedOf [sample.svcTwo, sample.svcA, sample.svcB] "two"
        = publishedOf [sample.svcTwo, sample.svcB, sample.svcA] "two" :=
  ⟨by decide, by decide,
    (published_ports_follow_visiting_order [sample.svcTwo, sample.svcA, sample.svcB]
      [sample.svcTwo, sample.svcB, sample.svcA] (by decide) (by decide)).2 sample.svcTwo
      [] [sample.svcA, sample.svcB] [] [sample.svcB, sample.svcA] rfl rfl rfl⟩

/-- C2 fails as stated: the two services `a` and `b`, each with one container declaring one
port, are the same set of services in the orders a, b and b, a; the entry of `a` is published
on 8080 in the first order and on 8081 in the second, and `Transform` writes different
documents for the same artifact under the two visiting orders of the same IR map. -/
theorem published_ports_differ_between_orders :
    [sample.svcA, sample.svcB].Perm [sample.svcB, sample.svcA]
    ∧ publishedOf [sample.svcA, sample.svcB] "a" = some [8080]
    ∧ publishedOf [sample.svcB, sample.svcA] "a" = some [8081]
    ∧ (sample.inOrder sample.irAB.Services).Perm (sample.reversed sample.irAB.Services)
    ∧ (Transform (sample.deps sample.inOrder) sample.generator [sample.irArtifact] []).emitted.map
          (fun e => (e.doc.Services.get? "a").map (fun cfg => cfg.Ports))
        = [some [{ Target := 80, Published := 8080 }]]
    ∧ (Transform (sample.deps sample.reversed) sample.generator [sample.irArtifact] []).emitted.map
          (fun e => (e.doc.Services.get? "a").map (fun cfg => cfg.Ports))
        = [some [{ Target := 80, Published := 8081 }]] := by
  decide

/-! ### The path mappings returned by `Transform` -/

end compose

namespace java

open transformertypes

/-! ### The loop over the artifacts -/

theorem transformOne_isSome (K : Consts) (D : Deps) (t : GradleAnalyser) (a : Artifact) :
    (transformOne K D t a).isSome = wellFormed D a := by
  unfold transformOne wellFormed
  cases hp : GoMap.getSlice a.Paths PathType.GradleBuildFilePathType with
  | nil => rfl
  | cons f r =>
    cases hg : D.ParseGardleBuildFile f with
    | error e => simp [hg]
    | ok gb =>
      cases he : (D.GetServiceConfig a).err with
      | none => simp [hg, he]
      | some e => simp [hg, he]

theorem transformOne_some (K : Consts) (D : Deps) (t : GradleAnalyser) (a : Artifact)
    (out : StepOutput) (h : transformOne K D t a = some out) :
    ∃ gb, out = stepOutput K D t a gb := by
  unfold transformOne at h
  cases hp : GoMap.getSlice a.Paths PathType.GradleBuildFilePathType with
  | nil => simp [hp] at h
  | cons f r =>
    cases hg : D.ParseGardleBuildFile f with
    | error e => simp [hp, hg] at h
    | ok gb =>
      cases he : (D.GetServiceConfig a).err with
      | none =>
        simp only [hp, hg, he, Option.some.injEq] at h
        exact ⟨gb, h.symm⟩
      | some e => simp [hp, hg, he] at h

theorem transformLoop_eq (K : Consts) (D : Deps) (t : GradleAnalyser) (l : List Artifact)
    (acc : Acc) :
    transformLoop K D t l acc =
      { pathMappings := acc.pathMappings
          ++ (l.filterMap (transformOne K D t)).map (fun o => o.pathMapping)
        createdArtifacts := acc.createdArtifacts
          ++ (l.filterMap (transformOne K D t)).map (fun o => o.newArtifact)
        written := acc.written ++ (l.filterMap (transformOne K D t)).map (fun o => o.written) } := by
  induction l generalizing acc with
  | nil => simp [transformLoop]
  | cons a r ih =>
    cases h : transformOne K D t a with
    | none => simp [transformLoop, h, ih, List.filterMap_cons]
    | some out => simp [transformLoop, h, ih, List.filterMap_cons]

theorem Transform_pathMappings (K : Consts) (D : Deps) (t : GradleAnalyser)
    (l seen : List Artifact) :
    (Transform K D t l seen).pathMappings
      = (l.filterMap (transformOne K D t)).map (fun o => o.pathMapping) := by
  simp [Transform, transformLoop_eq]

theorem Transform_createdArtifacts (K : Consts) (D : Deps) (t : GradleAnalyser)
    (l seen : List Artifact) :
    (Transform K D t l seen).createdArtifacts
      = (l.filterMap (transformOne K D t)).map (fun o => o.newArtifact) := by
  simp [Transform, transformLoop_eq]

theorem filterMap_eq_flatten {α β : Type} (f : α → Option β) (l : List α) :
    l.filterMap f = (l.map (fun a => [a].filterMap f)).flatten := by
  induction l with
  | nil => rfl
  | cons a r ih =>
    rw [List.map_cons, List.flatten_cons, ← ih]
    cases h : f a <;> simp [List.filterMap_cons, h]

theorem filterMap_length {α β : Type} (f : α → Option β) (l : List α) :
    (l.filterMap f).length = (l.filter (fun a => (f a).isSome)).length := by
  induction l with
  | nil => rfl
  | cons a r ih =>
    cases h : f a with
    | none => simp [List.filterMap_cons, List.filter_cons, h, ih]
    | some b => simp [List.filterMap_cons, List.filter_cons, h, ih]

theorem stepOutput_name (K : Consts) (D : Deps) (t : GradleAnalyser) (a : Artifact)
    (gb : gradle.Gradle) : (stepOutput K D t a gb).newArtifact.Name = a.Name := by
  simp only [stepOutput, packagedArtifact]
  split_ifs <;> rfl

theorem filterMap_names (K : Consts) (D : Deps) (t : GradleAnalyser) (l : List Artifact) :
    ((l.filterMap (transformOne K D t)).map (fun o => o.newArtifact)).map (fun x => x.Name)
      = (l.filter (wellFormed D)).map (fun x => x.Name) := by
  induction l with
  | nil => rfl
  | cons a r ih =>
    have hw := transformOne_isSome K D t a
    cases h : transformOne K D t a with
    | none =>
      rw [h] at hw
      have hw2 : wellFormed D a = false := by simpa using hw.symm
      simp only [List.filterMap_cons, h, List.filter_cons, hw2]
      simpa using ih
    | some out =>
      rw [h] at hw
      have hw2 : wellFormed D a = true := by simpa using hw.symm
      obtain ⟨gb, hgb⟩ := transformOne_some K D t a out h
      simp only [List.filterMap_cons, h, List.filter_cons, hw2, List.map_cons, if_true]
      rw [hgb, stepOutput_name]
      simpa using ih

theorem transformOne_none (K : Consts) (D : Deps) (t : GradleAnalyser) (a : Artifact)
    (h : GoMap.getSlice a.Paths PathType.GradleBuildFilePathType = []
      ∨ (∃ f r e, GoMap.getSlice a.Paths PathType.GradleBuildFilePathType = f :: r
          ∧ D.ParseGardleBuildFile f = Except.error e)
      ∨ (∃ e, (D.GetServiceConfig a).err = some e)) :
    transformOne K D t a = none := by
  unfold transformOne
  rcases h with h | ⟨f, r, e, h1, h2⟩ | ⟨e, h⟩
  · simp [h]
  · simp [h1, h2]
  · cases hp : GoMap.getSlice a.Paths PathType.GradleBuildFilePathType with
    | nil => rfl
    | cons f r =>
      cases hg : D.ParseGardleBuildFile f with
      | error e => simp [hg]
      | ok gb => simp [hg, h]

theorem transformOne_ok (K : Consts) (D : Deps) (t : GradleAnalyser) (a : Artifact)
    (f : String) (r : List String) (gb : gradle.Gradle)
    (h1 : GoMap.getSlice a.Paths PathType.GradleBuildFilePathType = f :: r)
    (h2 : D.ParseGardleBuildFile f = Except.ok gb) (h3 : (D.GetServiceConfig a).err = none) :
    transformOne K D t a = some (stepOutput K D t a gb) := by
  unfold transformOne
  simp [h1, h2, h3]

theorem filter_isSome_eq (K : Consts) (D : Deps) (t : GradleAnalyser) (l : List Artifact) :
    l.filter (fun a => (transformOne K D t a).isSome) = l.filter (wellFormed D) := by
  congr 1
  funext a
  exact transformOne_isSome K D t a

/-- C3: `GradleAnalyser.Transform` always returns a nil error.  An artifact with no gradle
build-file path entry, or whose build file does not parse, or whose service config does not
load, contributes no path mapping and no created artifact; every other artifact contributes
exactly one of each.  The lists returned for a sequence of artifacts are the contributions of
the single artifacts, concatenated in the order supplied, so that the created artifacts are
those of the well-formed inputs in input order (they keep the input names), the result is
not empty as soon as one input is well-formed, and three artifacts of which the middle one
lacks the build-file path yield exactly the two created artifacts of the other two. -/
theorem gradle_transform_isolates_failures (K : Consts) (D : Deps) (t : GradleAnalyser)
    (newArtifacts alreadySeenArtifacts : List Artifact) :
    (Transform K D t newArtifacts alreadySeenArtifacts).err = none
    ∧ (∀ a : Artifact,
        (GoMap.getSlice a.Paths PathType.GradleBuildFilePathType = []
          ∨ (∃ f r e, GoMap.getSlice a.Paths PathType.GradleBuildFilePathType = f :: r
              ∧ D.ParseGardleBuildFile f = Except.error e)
          ∨ (∃ e, (D.GetServiceConfig a).err = some e)) →
        (Transform K D t [a] alreadySeenArtifacts).pathMappings = []
          ∧ (Transform K D t [a] alreadySeenArtifacts).createdArtifacts = [])
    ∧ (∀ (a : Artifact) (f : String) (r : List String) (gb : gradle.Gradle),
        GoMap.getSlice a.Paths PathType.GradleBuildFilePathType = f :: r →
        D.ParseGardleBuildFile f = Except.ok gb → (D.GetServiceConfig a).err = none →
        (Transform K D t [a] alreadySeenArtifacts).pathMappings.length = 1
          ∧ (Transform K D t [a] alreadySeenArtifacts).createdArtifacts.length = 1)
    ∧ (Transform K D t newArtifacts alreadySeenArtifacts).pathMappings
        = (newArtifacts.map
            (fun a => (Transform K D t [a] alreadySeenArtifacts).pathMappings)).flatten
    ∧ (Transform K D t newArtifacts alreadySeenArtifacts).createdArtifacts
        = (newArtifacts.map
            (fun a => (Transform K D t [a] alreadySeenArtifacts).createdArtifacts)).flatten
    ∧ (Transform K D t newArtifacts alreadySeenArtifacts).createdArtifacts.map (fun x => x.Name)
        = (newArtifacts.filter (wellFormed D)).map (fun x => x.Name)
    ∧ (Transform K D t newArtifacts alreadySeenArtifacts).pathMappings.length
        = (newArtifacts.filter (wellFormed D)).length
    ∧ (Transform K D t newArtifacts alreadySeenArtifacts).createdArtifacts.length
        = (newArtifacts.filter (wellFormed D)).length
    ∧ ((∃ a ∈ newArtifacts, wellFormed D a = true) →
        (Transform K D t newArtifacts alreadySeenArtifacts).pathMappings ≠ []
          ∧ (Transform K D t newArtifacts alreadySeenArtifacts).createdArtifacts ≠ [])
    ∧ (∀ a1 a2 a3 : Artifact, newArtifacts = [a1, a2, a3] →
        wellFormed D a1 = true →
        GoMap.getSlice a2.Paths PathType.GradleBuildFilePathType = [] →
        wellFormed D a3 = true →
        (Transform K D t newArtifacts alreadySeenArtifacts).createdArtifacts.length = 2
          ∧ (Transform K D t newArtifacts alreadySeenArtifacts).createdArtifacts
              = (Transform K D t [a1] alreadySeenArtifacts).createdArtifacts
                ++ (Transform K D t [a3] alreadySeenArtifacts).createdArtifacts) := by
  have hlenP : (Transform K D t newArtifacts alreadySeenArtifacts).pathMappings.length
      = (newArtifacts.filter (wellFormed D)).length := by
    rw [Transform_pathMappings, List.length_map, filterMap_length, filter_isSome_eq]
  have hlenC : (Transform K D t newArtifacts alreadySeenArtifacts).createdArtifacts.length
      = (newArtifacts.filter (wellFormed D)).length := by
    rw [Transform_createdArtifacts, List.length_map, filterMap_length, filter_isSome_eq]
  have hflatC : (Transform K D t newArtifacts alreadySeenArtifacts).createdArtifacts
      = (newArtifacts.map
          (fun a => (Transform K D t [a] alreadySeenArtifacts).createdArtifacts)).flatten := by
    simp only [Transform_createdArtifacts]
    rw [filterMap_eq_flatten, List.map_flatten, List.map_map]
    rfl
  refine ⟨rfl, ?_, ?_, ?_, hflatC, ?_, hlenP, hlenC, ?_, ?_⟩
  · intro a h
    rw [Transform_pathMappings, Transform_createdArtifacts]
    simp [List.filterMap_cons, transformOne_none K D t a h]
  · intro a f r gb h1 h2 h3
    rw [Transform_pathMappings, Transform_createdArtifacts]
    simp [List.filterMap_cons, transformOne_ok K D t a f r gb h1 h2 h3]
  · simp only [Transform_pathMappings]
    rw [filterMap_eq_flatten, List.map_flatten, List.map_map]
    rfl
  · rw [Transform_createdArtifacts]
    exact filterMap_names K D t newArtifacts
  · rintro ⟨a, ha, hw⟩
    have hpos : 0 < (newArtifacts.filter (wellFormed D)).length :=
      List.length_pos_of_mem (List.mem_filter.mpr ⟨ha, hw⟩)
    constructor
    · intro h
      rw [h] at hlenP
      simp at hlenP
      omega
    · intro h
      rw [h] at hlenC
      simp at hlenC
      omega
  · intro a1 a2 a3 hl h1 h2 h3
    have hw2 : wellFormed D a2 = false := by
      unfold wellFormed
      simp [h2]
    have hn2 : (Transform K D t [a2] alreadySeenArtifacts).createdArtifacts = [] := by
      rw [Transform_createdArtifacts]
      simp [List.filterMap_cons, transformOne_none K D t a2 (Or.inl h2)]
    constructor
    · rw [hlenC, hl]
      simp [List.filter_cons, h1, hw2, h3]
    · rw [hflatC, hl]
      simp [hn2]

/-- Witness of C3: of three artifacts, the middle one has no build-file path. -/
theorem gradle_transform_isolates_failures_witness :
    wellFormed (sample.deps sample.inOrder) sample.jarArtifact = true
    ∧ GoMap.getSlice sample.noBuildFileArtifact.Paths PathType.GradleBuildFilePathType = []
    ∧ wellFormed (sample.deps sample.inOrder) sample.warArtifact = true
    ∧ (Transform sample.consts (sample.deps sample.inOrder) sample.analyser
        [sample.jarArtifact, sample.noBuildFileArtifact, sample.warArtifact] []).createdArtifacts.length
          = 2 :=
  ⟨by decide, by decide, by decide,
    ((gradle_transform_isolates_failures sample.consts (sample.deps sample.inOrder)
      sample.analyser [sample.jarArtifact, sample.noBuildFileArtifact, sample.warArtifact]
      []).2.2.2.2.2.2.2.2.2 sample.jarArtifact sample.noBuildFileArtifact sample.warArtifact rfl
      (by decide) (by decide) (by decide)).1⟩

/-! ### What a created artifact carries -/

theorem forall₂_filterMap {α β : Type} (f : α → Option β) (R : α → β → Prop)
    (hR : ∀ a b, f a = some b → R a b) (l : List α) :
    List.Forall₂ R (l.filter (fun a => (f a).isSome)) (l.filterMap f) := by
  induction l with
  | nil => exact List.Forall₂.nil
  | cons a r ih =>
    cases h : f a with
    | none => simpa [List.filter_cons, List.filterMap_cons, h] using ih
    | some b =>
      simp only [List.filter_cons, List.filterMap_cons, h, Option.isSome_some, if_true]
      exact List.Forall₂.cons (hR a b h) ih

theorem Transform_zip (K : Consts) (D : Deps) (t : GradleAnalyser) (l seen : List Artifact) :
    (Transform K D t l seen).pathMappings.zip (Transform K D t l seen).createdArtifacts
      = (l.filterMap (transformOne K D t)).map (fun o => (o.pathMapping, o.newArtifact)) := by
  rw [Transform_pathMappings, Transform_createdArtifacts, List.zip_map']

theorem Transform_forall₂ (K : Consts) (D : Deps) (t : GradleAnalyser) (l seen : List Artifact)
    (R : Artifact → PathMapping × Artifact → Prop)
    (hR : ∀ a gb, R a ((stepOutput K D t a gb).pathMapping, (stepOutput K D t a gb).newArtifact)) :
    List.Forall₂ R (l.filter (wellFormed D))
      ((Transform K D t l seen).pathMappings.zip (Transform K D t l seen).createdArtifacts) := by
  rw [Transform_zip, ← filter_isSome_eq K D t, List.forall₂_map_right_iff]
  apply forall₂_filterMap
  intro a out h
  obtain ⟨gb, hgb⟩ := transformOne_some K D t a out h
  rw [hgb]
  exact hR a gb

/-- C7: Every artifact created by `GradleAnalyser.Transform` comes, in order, from a
well-formed input together with the template path mapping emitted for it.  It keeps the name
of that input and its service-directory paths; its type follows the Gradle packaging of the
input: war packaging gives a war-package artifact carrying a war config, ear packaging an
ear-package artifact carrying an ear config, and every other packaging a jar-package artifact
carrying a jar config; it carries an image-name config and the service config of the input;
and its only build-container-dockerfile path is the destination of that path mapping. -/
theorem gradle_created_artifact_routing (K : Consts) (D : Deps) (t : GradleAnalyser)
    (newArtifacts alreadySeenArtifacts : List Artifact)
    (hK : K.WarPackaging ≠ K.EarPackaging) :
    List.Forall₂
      (fun (a : Artifact) (r : PathMapping × Artifact) =>
        r.2.Name = a.Name
        ∧ GoMap.getSlice r.2.Paths PathType.ServiceDirPathType
            = GoMap.getSlice a.Paths PathType.ServiceDirPathType
        ∧ ((D.GetGradleConfig a).obj.ArtifactType = K.WarPackaging →
            r.2.Type_ = ArtifactType.WarArtifactType
              ∧ ∃ c, r.2.Configs.get? ConfigType.WarConfigType = some (ConfigValue.war c))
        ∧ ((D.GetGradleConfig a).obj.ArtifactType = K.EarPackaging →
            r.2.Type_ = ArtifactType.EarArtifactType
              ∧ ∃ c, r.2.Configs.get? ConfigType.EarConfigType = some (ConfigValue.ear c))
        ∧ ((D.GetGradleConfig a).obj.ArtifactType ≠ K.WarPackaging →
            (D.GetGradleConfig a).obj.ArtifactType ≠ K.EarPackaging →
            r.2.Type_ = ArtifactType.JarArtifactType
              ∧ ∃ c, r.2.Configs.get? ConfigType.JarConfigType = some (ConfigValue.jar c))
        ∧ (∃ img, r.2.Configs.get? ConfigType.ImageNameConfigType
            = some (ConfigValue.imageName img))
        ∧ r.2.Configs.get? ConfigType.ServiceConfigType
            = some (ConfigValue.service (D.GetServiceConfig a).obj)
        ∧ r.1.Type_ = PathMappingType.TemplatePathMappingType
        ∧ GoMap.getSlice r.2.Paths PathType.BuildContainerFileType = [r.1.DestPath])
      (newArtifacts.filter (wellFormed D))
      ((Transform K D t newArtifacts alreadySeenArtifacts).pathMappings.zip
        (Transform K D t newArtifacts alreadySeenArtifacts).createdArtifacts) := by
  apply Transform_forall₂
  intro a gb
  have hEW : ¬ K.EarPackaging = K.WarPackaging := fun h => hK h.symm
  refine ⟨stepOutput_name K D t a gb, ?_, ?_, ?_, ?_, ?_, ?_, ?_, ?_⟩
  · simp [stepOutput, GoMap.getSlice, GoMap.get?_set]
  · intro hw
    simp [stepOutput, packagedArtifact, hw, GoMap.get?_set]
    split_ifs <;> simp [GoMap.get?_set]
  · intro he
    simp [stepOutput, packagedArtifact, he, hEW, GoMap.get?_set]
    split_ifs <;> simp [GoMap.get?_set]
  · intro hw he
    simp [stepOutput, packagedArtifact, hw, he, GoMap.get?_set]
    split_ifs <;> simp [GoMap.get?_set]
  · simp [stepOutput, GoMap.get?_set]
  · simp [stepOutput, GoMap.get?_set]
  · simp [stepOutput]
  · simp [stepOutput, GoMap.getSlice, GoMap.get?_set]

/-- Witness of C7 on a war and an ear artifact around an artifact without build file. -/
theorem gradle_created_artifact_routing_witness :
    sample.consts.WarPackaging ≠ sample.consts.EarPackaging
    ∧ ([sample.warArtifact, sample.noBuildFileArtifact, sample.earArtifact].filter
        (wellFormed (sample.deps sample.inOrder))).length
      = ((Transform sample.consts (sample.deps sample.inOrder) sample.analyser
          [sample.warArtifact, sample.noBuildFileArtifact, sample.earArtifact] []).pathMappings.zip
        (Transform sample.consts (sample.deps sample.inOrder) sample.analyser
          [sample.warArtifact, sample.noBuildFileArtifact, sample.earArtifact]
          []).createdArtifacts).length :=
  ⟨by decide,
    (gradle_created_artifact_routing sample.consts (sample.deps sample.inOrder) sample.analyser
      [sample.warArtifact, sample.noBuildFileArtifact, sample.earArtifact] []
      (by decide)).length_eq⟩

/-! ### The environment overlay -/

theorem pickedPort_eq (K : Consts) (D : Deps) (a : Artifact) :
    D.GetPortForService
      (if (D.GetAllServicePorts (D.GetIRConfig a).obj).length = 0
        then D.GetAllServicePorts (D.GetIRConfig a).obj ++ [K.DefaultServicePort]
        else D.GetAllServicePorts (D.GetIRConfig a).obj) a.Name = pickedPort K D a := by
  unfold pickedPort
  cases h : D.GetAllServicePorts (D.GetIRConfig a).obj with
  | nil => simp
  | cons x r => simp

theorem initialEnvVariables_get? (flat k : String) :
    (initialEnvVariables flat).get? k
      = if flat ≠ "" ∧ k = "SPRING_PROFILES_ACTIVE" then some flat else none := by
  unfold initialEnvVariables
  by_cases hf : flat = ""
  · simp [hf, GoMap.get?]
  · by_cases hk : k = "SPRING_PROFILES_ACTIVE"
    · simp [hf, hk, GoMap.get?_set]
    · have hk2 : ¬ "SPRING_PROFILES_ACTIVE" = k := fun e => hk e.symm
      simp [hf, hk, hk2, GoMap.get?_set, GoMap.get?]

/-- C9: For every artifact created by `GradleAnalyser.Transform`, in order of the well-formed
inputs: with jar (default) packaging the jar config has the default service port in its
`Port` field, and its environment overlay holds exactly one of the keys `PORT` and
`SERVER_PORT`, namely `SERVER_PORT` when the flattened profile selection is not empty and
`PORT` otherwise, with the decimal rendering of the port the resolver picks from the service
ports of the IR (from the default service port alone when the IR declares none); with war or
ear packaging the config holds neither key. -/
theorem gradle_port_variables (K : Consts) (D : Deps) (t : GradleAnalyser)
    (newArtifacts alreadySeenArtifacts : List Artifact)
    (hK : K.WarPackaging ≠ K.EarPackaging) :
    List.Forall₂
      (fun (a : Artifact) (r : PathMapping × Artifact) =>
        ((D.GetGradleConfig a).obj.ArtifactType ≠ K.WarPackaging →
          (D.GetGradleConfig a).obj.ArtifactType ≠ K.EarPackaging →
          ∃ c, r.2.Configs.get? ConfigType.JarConfigType = some (ConfigValue.jar c)
            ∧ c.Port = K.DefaultServicePort
            ∧ (flattenedSelection K D a ≠ "" →
                c.EnvVariables.get? "SERVER_PORT" = some (sprintfD (pickedPort K D a))
                  ∧ c.EnvVariables.get? "PORT" = none)
            ∧ (flattenedSelection K D a = "" →
                c.EnvVariables.get? "PORT" = some (sprintfD (pickedPort K D a))
                  ∧ c.EnvVariables.get? "SERVER_PORT" = none))
        ∧ ((D.GetGradleConfig a).obj.ArtifactType = K.WarPackaging →
            ∃ c, r.2.Configs.get? ConfigType.WarConfigType = some (ConfigValue.war c)
              ∧ c.EnvVariables.get? "PORT" = none ∧ c.EnvVariables.get? "SERVER_PORT" = none)
        ∧ ((D.GetGradleConfig a).obj.ArtifactType = K.EarPackaging →
            ∃ c, r.2.Configs.get? ConfigType.EarConfigType = some (ConfigValue.ear c)
              ∧ c.EnvVariables.get? "PORT" = none ∧ c.EnvVariables.get? "SERVER_PORT" = none))
      (newArtifacts.filter (wellFormed D))
      ((Transform K D t newArtifacts alreadySeenArtifacts).pathMappings.zip
        (Transform K D t newArtifacts alreadySeenArtifacts).createdArtifacts) := by
  apply Transform_forall₂
  intro a gb
  have hEW : ¬ K.EarPackaging = K.WarPackaging := fun h => hK h.symm
  refine ⟨?_, ?_, ?_⟩
  · intro hw he
    by_cases hf : flattenedSelection K D a = ""
    · have hf2 : flattenProfiles K D a (D.GetSpringBootConfig a).obj = "" := hf
      simp [stepOutput, packagedArtifact, hw, he, GoMap.get?_set, hf, hf2,
        initialEnvVariables_get?]
      split_ifs <;> simp_all [GoMap.get?_set, pickedPort, initialEnvVariables_get?]
    · have hf2 : ¬ flattenProfiles K D a (D.GetSpringBootConfig a).obj = "" := hf
      simp [stepOutput, packagedArtifact, hw, he, GoMap.get?_set, hf, hf2,
        initialEnvVariables_get?]
      split_ifs <;> simp_all [GoMap.get?_set, pickedPort, initialEnvVariables_get?]
  · intro hw
    simp [stepOutput, packagedArtifact, hw, GoMap.get?_set, initialEnvVariables_get?]
    split_ifs <;> simp [GoMap.get?_set, initialEnvVariables_get?]
  · intro he
    simp [stepOutput, packagedArtifact, he, hEW, GoMap.get?_set, initialEnvVariables_get?]
    split_ifs <;> simp [GoMap.get?_set, initialEnvVariables_get?]

/-- Witness of C9 on a jar, a war and an ear artifact. -/
theorem gradle_port_variables_witness :
    sample.consts.WarPackaging ≠ sample.consts.EarPackaging
    ∧ ([sample.jarArtifact, sample.warArtifact, sample.earArtifact].filter
        (wellFormed (sample.deps sample.inOrder))).length
      = ((Transform sample.consts (sample.deps sample.inOrder) sample.analyser
          [sample.jarArtifact, sample.warArtifact, sample.earArtifact] []).pathMappings.zip
        (Transform sample.consts (sample.deps sample.inOrder) sample.analyser
          [sample.jarArtifact, sample.warArtifact, sample.earArtifact]
          []).createdArtifacts).length :=
  ⟨by decide,
    (gradle_port_variables sample.consts (sample.deps sample.inOrder) sample.analyser
      [sample.jarArtifact, sample.warArtifact, sample.earArtifact] []
      (by decide)).length_eq⟩

/-! ### The selected profiles -/

theorem intercalate_go_length (acc sep : String) (l : List String) :
    acc.length ≤ (String.intercalate.go acc sep l).length := by
  induction l generalizing acc with
  | nil => simp [String.intercalate.go]
  | cons x r ih =>
    simp only [String.intercalate.go]
    refine Nat.le_trans ?_ (ih _)
    simp only [String.length_append]
    omega

theorem string_ne_empty_of_length_pos (x : String) (h : 0 < x.length) : x ≠ "" := by
  intro hx
  rw [hx] at h
  simp at h

theorem stringsJoin_ne_empty (sel : List String) (h1 : sel ≠ []) (h2 : sel ≠ [""]) :
    stringsJoin sel "," ≠ "" := by
  unfold stringsJoin
  cases sel with
  | nil => exact absurd rfl h1
  | cons x r =>
    cases r with
    | nil =>
      have hx : x ≠ "" := fun hx => h2 (by rw [hx])
      simpa [String.intercalate, String.intercalate.go] using hx
    | cons y r2 =>
      apply string_ne_empty_of_length_pos
      simp only [String.intercalate, String.intercalate.go]
      refine Nat.lt_of_lt_of_le ?_ (intercalate_go_length _ _ _)
      simp only [String.length_append]
      have hc : ("," : String).length = 1 := by decide
      omega

theorem stringsJoin_empty (sel : List String) (h : sel = [] ∨ sel = [""]) :
    stringsJoin sel "," = "" := by
  rcases h with h | h <;> subst h <;> rfl

theorem flattenedSelection_offered (K : Consts) (D : Deps) (a : Artifact)
    (profiles : List String)
    (h : (D.GetSpringBootConfig a).obj.SpringBootProfiles = some profiles) (hp : profiles ≠ []) :
    flattenedSelection K D a = stringsJoin (resolverAnswer K D a profiles) "," := by
  have hlen : profiles.length > 0 := List.length_pos.mpr hp
  unfold flattenedSelection flattenProfiles
  simp only [h, hlen, if_true]
  by_cases hs : resolverAnswer K D a profiles = []
  · have hs2 := hs
    unfold resolverAnswer at hs2
    simp [hs2, hs, stringsJoin, String.intercalate]
  · have hs2 := hs
    unfold resolverAnswer at hs2
    simp [hs2, resolverAnswer]

theorem flattenedSelection_not_offered (K : Consts) (D : Deps) (a : Artifact)
    (h : (D.GetSpringBootConfig a).obj.SpringBootProfiles = none
      ∨ (D.GetSpringBootConfig a).obj.SpringBootProfiles = some []) :
    flattenedSelection K D a = "" := by
  unfold flattenedSelection flattenProfiles
  rcases h with h | h <;> simp [h]

theorem packagingEnv_stepOutput (K : Consts) (D : Deps) (t : GradleAnalyser) (a : Artifact)
    (gb : gradle.Gradle) :
    ∃ env, packagingEnv (stepOutput K D t a gb).newArtifact = some env
      ∧ env.get? "SPRING_PROFILES_ACTIVE"
          = if flattenedSelection K D a ≠ "" then some (flattenedSelection K D a) else none := by
  unfold flattenedSelection
  by_cases hw : (D.GetGradleConfig a).obj.ArtifactType = K.WarPackaging
  · simp only [packagingEnv, stepOutput, packagedArtifact, hw, if_true]
    split_ifs <;> simp_all [GoMap.get?_set, initialEnvVariables_get?, GoMap.get?_nil]
  · by_cases he : (D.GetGradleConfig a).obj.ArtifactType = K.EarPackaging
    · simp only [packagingEnv, stepOutput, packagedArtifact, hw, he, if_true, if_false]
      split_ifs <;> simp_all [GoMap.get?_set, initialEnvVariables_get?, GoMap.get?_nil]
    · simp only [packagingEnv, stepOutput, packagedArtifact, hw, he, if_false]
      split_ifs <;> simp_all [GoMap.get?_set, initialEnvVariables_get?, GoMap.get?_nil]

/-- C4, as the code has it: for every artifact created by `GradleAnalyser.Transform`, in order
of the well-formed inputs, with the environment overlay of its packaging config: when the
Spring Boot config of the input offers profiles and the resolver returns a selection that is
neither empty nor the single profile with the empty name, the overlay holds the key
`SPRING_PROFILES_ACTIVE` with the selected profiles joined by commas in the returned order;
when the selection is empty or is the single profile with the empty name, or when no profiles
are offered, the key is absent. -/
theorem spring_profiles_overlay (K : Consts) (D : Deps) (t : GradleAnalyser)
    (newArtifacts alreadySeenArtifacts : List Artifact) :
    List.Forall₂
      (fun (a : Artifact) (r : PathMapping × Artifact) =>
        ∃ env, packagingEnv r.2 = some env
          ∧ (∀ profiles : List String,
              (D.GetSpringBootConfig a).obj.SpringBootProfiles = some profiles →
              profiles ≠ [] →
              (resolverAnswer K D a profiles ≠ [] → resolverAnswer K D a profiles ≠ [""] →
                env.get? "SPRING_PROFILES_ACTIVE"
                  = some (stringsJoin (resolverAnswer K D a profiles) ","))
              ∧ (resolverAnswer K D a profiles = [] ∨ resolverAnswer K D a profiles = [""] →
                  env.get? "SPRING_PROFILES_ACTIVE" = none))
          ∧ ((D.GetSpringBootConfig a).obj.SpringBootProfiles = none
              ∨ (D.GetSpringBootConfig a).obj.SpringBootProfiles = some [] →
              env.get? "SPRING_PROFILES_ACTIVE" = none))
      (newArtifacts.filter (wellFormed D))
      ((Transform K D t newArtifacts alreadySeenArtifacts).pathMappings.zip
        (Transform K D t newArtifacts alreadySeenArtifacts).createdArtifacts) := by
  apply Transform_forall₂
  intro a gb
  obtain ⟨env, henv, hget⟩ := packagingEnv_stepOutput K D t a gb
  refine ⟨env, henv, ?_, ?_⟩
  · intro profiles hoff hne
    rw [hget, flattenedSelection_offered K D a profiles hoff hne]
    constructor
    · intro h1 h2
      rw [if_pos (stringsJoin_ne_empty _ h1 h2)]
    · intro h
      rw [if_neg (by simpa using stringsJoin_empty _ h)]
  · intro h
    rw [hget, flattenedSelection_not_offered K D a h]
    simp

/-- Witness of the amended C4: the resolver returns both offered profiles. -/
theorem spring_profiles_overlay_witness :
    (((sample.deps sample.inOrder).GetSpringBootConfig sample.jarArtifact).obj.SpringBootProfiles
        = some ["dev", "prod"])
    ∧ resolverAnswer sample.consts (sample.deps sample.inOrder) sample.jarArtifact ["dev", "prod"]
        = ["dev", "prod"]
    ∧ ([sample.jarArtifact].filter (wellFormed (sample.deps sample.inOrder))).length
      = ((Transform sample.consts (sample.deps sample.inOrder) sample.analyser
          [sample.jarArtifact] []).pathMappings.zip
        (Transform sample.consts (sample.deps sample.inOrder) sample.analyser
          [sample.jarArtifact] []).createdArtifacts).length :=
  ⟨by decide, by decide,
    (spring_profiles_overlay sample.consts (sample.deps sample.inOrder) sample.analyser
      [sample.jarArtifact] []).length_eq⟩

/-- C4 fails as stated: the input offers the single profile with the empty name and the
resolver returns it, so the returned subset is not empty; its join by commas is the empty
string and the created jar config has no `SPRING_PROFILES_ACTIVE` key in its overlay. -/
theorem spring_profiles_key_absent_for_nonempty_selection :
    ((sample.deps sample.inOrder).GetSpringBootConfig sample.emptyProfileArtifact).obj.SpringBootProfiles
        = some [""]
    ∧ resolverAnswer sample.consts (sample.deps sample.inOrder) sample.emptyProfileArtifact [""]
        = [""]
    ∧ resolverAnswer sample.consts (sample.deps sample.inOrder) sample.emptyProfileArtifact [""]
        ≠ []
    ∧ (Transform sample.consts (sample.deps sample.inOrder) sample.analyser
        [sample.emptyProfileArtifact] []).createdArtifacts.map
          (fun art => (packagingEnv art).map (fun env => env.get? "SPRING_PROFILES_ACTIVE"))
        = [some none] := by
  decide

/-! ### `DirectoryDetect` -/

theorem dependenciesLoop_gradleConfig (K : Consts) (D : Deps) (dir : String)
    (l : List gradle.GradleDependency) (st : String × GoMap ConfigType ConfigValue) :
    (dependenciesLoop K D dir l st).2.get? ConfigType.GradleConfigType
      = st.2.get? ConfigType.GradleConfigType := by
  induction l generalizing st with
  | nil => rfl
  | cons d r ih =>
    by_cases hg : d.Group = K.springbootGroup
    · simp [dependenciesLoop, hg, GoMap.get?_set]
    · simp [dependenciesLoop, hg, ih]

theorem classify_cases (K : Consts) (gb : gradle.Gradle) :
    ((gb.Metadata.get? K.EarPackaging).isSome = true →
        (classify K gb).ArtifactType = K.EarPackaging)
    ∧ ((gb.Metadata.get? K.EarPackaging).isSome = false →
        (gb.Metadata.get? K.WarPackaging).isSome = true →
        (classify K gb).ArtifactType = K.WarPackaging)
    ∧ ((gb.Metadata.get? K.EarPackaging).isSome = false →
        (gb.Metadata.get? K.WarPackaging).isSome = false →
        (classify K gb).ArtifactType = K.JarPackaging) := by
  unfold classify
  refine ⟨fun h => ?_, fun h1 h2 => ?_, fun h1 h2 => ?_⟩
  · simp [h]
  · simp [h1, h2]
  · simp [h1, h2]

theorem DirectoryDetect_recognized (K : Consts) (D : Deps) (t : GradleAnalyser) (dir : String)
    (first : String) (rest : List String) (gb : gradle.Gradle)
    (h1 : D.GetFilesInCurrentDirectory dir [gradleBuildFileName] [] = Except.ok (first :: rest))
    (h2 : D.ParseGardleBuildFile first = Except.ok gb) :
    DirectoryDetect K D t dir =
      { services :=
          [((dependenciesLoop K D dir gb.Dependencies
              ("", GoMap.set [] ConfigType.GradleConfigType
                (ConfigValue.gradle (classify K gb)))).1,
            [{ Name := ""
               Type_ := ArtifactType.other ""
               Configs := (dependenciesLoop K D dir gb.Dependencies
                 ("", GoMap.set [] ConfigType.GradleConfigType
                   (ConfigValue.gradle (classify K gb)))).2
               Paths := (GoMap.set [] PathType.GradleBuildFilePathType
                 [D.Join [dir, gradleBuildFileName]]).set PathType.ServiceDirPathType [dir] }])]
        err := none } := by
  unfold DirectoryDetect
  simp [h1, h2, GoMap.set, GoMap.getSlice, GoMap.get?]

/-- C5: `GradleAnalyser.DirectoryDetect` returns the empty result and no error when the
listing of the immediate contents of the directory holds no `build.gradle`.  When one is
listed and parses, it returns no error and exactly one artifact, under one service name; the
build-file path of that artifact is the directory joined with `build.gradle`, its
service-directory path is the directory, and its Gradle config has the ear packaging when the
build metadata has the ear marker, otherwise the war packaging when it has the war marker,
and the jar packaging when it has neither.  When the listed file does not parse, the error
is returned with an empty result.  Hence directories that each hold a build file that parses
yield as many artifacts as there are directories. -/
theorem directory_detect_result (K : Consts) (D : Deps) (t : GradleAnalyser) :
    (∀ dir : String,
        D.GetFilesInCurrentDirectory dir [gradleBuildFileName] [] = Except.ok [] →
        DirectoryDetect K D t dir = { services := [], err := none })
    ∧ (∀ (dir first : String) (rest : List String) (gb : gradle.Gradle),
        D.GetFilesInCurrentDirectory dir [gradleBuildFileName] [] = Except.ok (first :: rest) →
        D.ParseGardleBuildFile first = Except.ok gb →
        ∃ (appName : String) (ct : Artifact),
          (DirectoryDetect K D t dir).services = [(appName, [ct])]
          ∧ (DirectoryDetect K D t dir).err = none
          ∧ artifactCount (DirectoryDetect K D t dir) = 1
          ∧ GoMap.getSlice ct.Paths PathType.GradleBuildFilePathType
              = [D.Join [dir, "build.gradle"]]
          ∧ GoMap.getSlice ct.Paths PathType.ServiceDirPathType = [dir]
          ∧ ∃ gc, ct.Configs.get? ConfigType.GradleConfigType = some (ConfigValue.gradle gc)
              ∧ ((gb.Metadata.get? K.EarPackaging).isSome = true →
                  gc.ArtifactType = K.EarPackaging)
              ∧ ((gb.Metadata.get? K.EarPackaging).isSome = false →
                  (gb.Metadata.get? K.WarPackaging).isSome = true →
                  gc.ArtifactType = K.WarPackaging)
              ∧ ((gb.Metadata.get? K.EarPackaging).isSome = false →
                  (gb.Metadata.get? K.WarPackaging).isSome = false →
                  gc.ArtifactType = K.JarPackaging))
    ∧ (∀ (dir first : String) (rest : List String) (e : String),
        D.GetFilesInCurrentDirectory dir [gradleBuildFileName] [] = Except.ok (first :: rest) →
        D.ParseGardleBuildFile first = Except.error e →
        DirectoryDetect K D t dir = { services := [], err := some e })
    ∧ (∀ dirs : List String,
        (∀ d ∈ dirs, ∃ (first : String) (rest : List String) (gb : gradle.Gradle),
          D.GetFilesInCurrentDirectory d [gradleBuildFileName] [] = Except.ok (first :: rest)
            ∧ D.ParseGardleBuildFile first = Except.ok gb) →
        (dirs.map (fun d => artifactCount (DirectoryDetect K D t d))).sum = dirs.length) := by
  have hrec : ∀ (dir first : String) (rest : List String) (gb : gradle.Gradle),
      D.GetFilesInCurrentDirectory dir [gradleBuildFileName] [] = Except.ok (first :: rest) →
      D.ParseGardleBuildFile first = Except.ok gb →
      artifactCount (DirectoryDetect K D t dir) = 1 := by
    intro dir first rest gb h1 h2
    rw [DirectoryDetect_recognized K D t dir first rest gb h1 h2]
    simp [artifactCount]
  refine ⟨?_, ?_, ?_, ?_⟩
  · intro dir h
    unfold DirectoryDetect
    simp [h]
  · intro dir first rest gb h1 h2
    have hcount := hrec dir first rest gb h1 h2
    rw [DirectoryDetect_recognized K D t dir first rest gb h1 h2] at hcount ⊢
    refine ⟨_, _, rfl, rfl, hcount, ?_, ?_, ?_⟩
    · simp [GoMap.getSlice, GoMap.get?_set, GoMap.get?_nil, gradleBuildFileName]
    · simp [GoMap.getSlice, GoMap.get?_set]
    · refine ⟨classify K gb, ?_, classify_cases K gb⟩
      rw [dependenciesLoop_gradleConfig]
      simp [GoMap.get?_set]
  · intro dir first rest e h1 h2
    unfold DirectoryDetect
    simp [h1, h2]
  · intro dirs
    induction dirs with
    | nil => simp
    | cons d r ih =>
      intro h
      obtain ⟨first, rest, gb, h1, h2⟩ := h d (List.mem_cons_self d r)
      rw [List.map_cons, List.sum_cons, hrec d first rest gb h1 h2,
        ih (fun x hx => h x (List.mem_cons_of_mem d hx)), List.length_cons]
      omega

/-- Witness of C5: a directory without a build file, and three directories with one each. -/
theorem directory_detect_result_witness :
    (sample.deps sample.inOrder).GetFilesInCurrentDirectory "/src/docs" [gradleBuildFileName] []
        = Except.ok []
    ∧ DirectoryDetect sample.consts (sample.deps sample.inOrder) sample.analyser "/src/docs"
        = { services := [], err := none }
    ∧ (["/src/app", "/src/web", "/src/ent"].map (fun d =>
        artifactCount (DirectoryDetect sample.consts (sample.deps sample.inOrder)
          sample.analyser d))).sum = 3 :=
  ⟨rfl,
    (directory_detect_result sample.consts (sample.deps sample.inOrder) sample.analyser).1
      "/src/docs" rfl,
    (directory_detect_result sample.consts (sample.deps sample.inOrder) sample.analyser).2.2.2
      ["/src/app", "/src/web", "/src/ent"] (by
        intro d hd
        simp only [List.mem_cons, List.mem_singleton, List.not_mem_nil, or_false] at hd
        rcases hd with rfl | rfl | rfl
        · exact ⟨_, _, _, rfl, rfl⟩
        · exact ⟨_, _, _, rfl, rfl⟩
        · exact ⟨_, _, _, rfl, rfl⟩)⟩

end java

end Move2Kube
